import Mathlib

set_option autoImplicit false

/-!
Shallow embedding of the azurerm Terraform provider resource adapters.

Modelling conventions, used uniformly below:

* Remote HTTP calls, identifier-parsing helpers that are not among the provided
  sources, and the plugin framework are modelled as explicit environment inputs:
  each adapter function takes a record holding the outcome of every remote call
  it makes (payload, HTTP status code of the response, and the error value the
  SDK client returned), and returns the final resource-data state together with
  the error value the Go function returns.
* `Exec.crash` models a Go runtime panic (nil-pointer dereference or a failed
  single-valued type assertion on data the schema does not guarantee).
  Dynamic type assertions that the Terraform schema does guarantee
  (`d.Get("name").(string)` on a declared string field) are modelled as total
  projections returning the Go zero value when the field is unset, which is
  exactly the behaviour of `schema.ResourceData.Get`.
* Go `nil` pointers and `nil` slices are `Option`; Go string-keyed maps are
  association lists (Go map iteration order is unspecified; insertion order is
  used).
-/

/-- Dynamic values stored in Terraform's resource-data field bag
(`interface{}` values inside `map[string]interface{}` in the Go source). -/
inductive Attr where
  | s (v : String)
  | i (v : Int)
  | b (v : Bool)
  | f (v : Float)
  | l (vs : List Attr)
  | m (kvs : List (String × Attr))

/-- Go single-valued type assertion `.(string)`, comma-ok form. -/
def Attr.asStr : Attr → Option String
  | .s v => some v
  | _ => none

/-- Go single-valued type assertion `.(int)`, comma-ok form. -/
def Attr.asInt : Attr → Option Int
  | .i v => some v
  | _ => none

/-- Go single-valued type assertion `.(bool)`, comma-ok form. -/
def Attr.asBool : Attr → Option Bool
  | .b v => some v
  | _ => none

/-- Lookup in a Go `map[string]interface{}` modelled as an association list:
a missing key yields `none` (the nil interface, on which comma-ok assertions fail). -/
def mlookup (kvs : List (String × Attr)) (k : String) : Option Attr :=
  (kvs.find? (fun kv => kv.1 == k)).map (fun kv => kv.2)

/-- Terraform's `schema.ResourceData`: the stored resource ID plus the field bag. -/
structure ResourceData where
  id : String
  attrs : List (String × Attr)

/-- Terraform `d.SetId`. -/
def ResourceData.setId (d : ResourceData) (v : String) : ResourceData :=
  { d with id := v }

/-- Terraform `d.Set k v`: most-recent entry wins, so prepending models overwrite. -/
def ResourceData.set (d : ResourceData) (k : String) (v : Attr) : ResourceData :=
  { d with attrs := (k, v) :: d.attrs }

/-- Terraform `d.Get k` (raw dynamic value; `none` only for fields absent from state). -/
def ResourceData.get (d : ResourceData) (k : String) : Option Attr :=
  (d.attrs.find? (fun kv => kv.1 == k)).map (fun kv => kv.2)

/-- Terraform `d.Get(k).(string)` on a schema-declared string field
(zero value `""` when unset). -/
def ResourceData.getStr (d : ResourceData) (k : String) : String :=
  match d.get k with
  | some (Attr.s v) => v
  | _ => ""

/-- Terraform `d.Get(k).(int)` on a schema-declared int field (zero value `0`). -/
def ResourceData.getInt (d : ResourceData) (k : String) : Int :=
  match d.get k with
  | some (Attr.i v) => v
  | _ => 0

/-- Terraform `d.Get(k).(bool)` on a schema-declared bool field (zero value `false`). -/
def ResourceData.getBool (d : ResourceData) (k : String) : Bool :=
  match d.get k with
  | some (Attr.b v) => v
  | _ => false

/-- Terraform `d.Get(k).([]interface{})` / `.(*schema.Set).List()` on a declared
list or set field (zero value: empty list). -/
def ResourceData.getList (d : ResourceData) (k : String) : List Attr :=
  match d.get k with
  | some (Attr.l vs) => vs
  | _ => []

/-- Terraform `d.Get(k).(map[string]interface{})` on a declared map field. -/
def ResourceData.getMap (d : ResourceData) (k : String) : List (String × Attr) :=
  match d.get k with
  | some (Attr.m kvs) => kvs
  | _ => []

/-- Terraform `d.GetOk(k)` on a string field: the value when it is set and
non-zero, `none` otherwise. -/
def ResourceData.getOkStr (d : ResourceData) (k : String) : Option String :=
  let v := d.getStr k
  if v = "" then none else some v

/-- Result of running one Go CRUD function body: either a normal return
(final state plus the returned error value) or a runtime panic. -/
inductive Exec (α : Type) where
  | crash
  | ok (a : α)

/-- Error values a resource adapter returns to Terraform core. -/
inductive AdapterError where
  /-- `tf.ImportAsExistsError(resourceType, id)`: the framework-recognised
  import-required ("already exists") error. -/
  | importAsExists (resourceType : String) (id : String)
  /-- An error built with `fmt.Errorf` inside the adapter (the tag names the
  format string used at the source location). -/
  | errorf (msg : String)
  /-- An error value returned verbatim (Go `return err`). -/
  | goError (msg : String)
deriving DecidableEq, Repr

/-- Outcome of one Go CRUD function. -/
abbrev CrudOutcome := Exec (ResourceData × Option AdapterError)

/-- Outcome of one remote SDK call: decoded payload, HTTP status code of the
response (`none` when the response object is nil), and the error value. -/
structure RemoteCall (α : Type) where
  value : α
  status : Option Nat
  err : Option String

/-- `utils.ResponseWasNotFound` / `response.WasNotFound`: response non-nil and
status 404. -/
def responseWasNotFound (status : Option Nat) : Bool :=
  status == some 404

/-- Parsed Azure resource ID (`parseAzureResourceID` result): resource group
plus the hierarchical path segments. -/
structure ResourceID where
  resourceGroup : String
  path : List (String × String)

/-- Go map indexing `id.Path[k]` (zero value `""` for a missing key). -/
def ResourceID.pathGet (rid : ResourceID) (k : String) : String :=
  (((rid.path.find? (fun kv => kv.1 == k))).map (fun kv => kv.2)).getD ""

/-- Modelled from the spec: `azureRMNormalizeLocation` (shared helper, not among
the provided sources; §4 describes flattening remote fields into local state).
Location strings are normalised by lower-casing and dropping spaces. -/
def azureRMNormalizeLocation (s : String) : String :=
  ((s.data.filter (fun c => c ≠ ' ')).map Char.toLower).asString

/-- Modelled from the spec: `flattenAndSetTags` (shared tags helper, not among
the provided sources; §3: tags are an optional string-to-string mapping stored in
local state). It stores the remote tag map under the `tags` field. -/
def flattenAndSetTags (d : ResourceData) (tags : List (String × String)) : ResourceData :=
  d.set "tags" (Attr.m (tags.map (fun kv => (kv.1, Attr.s kv.2))))

/-- Modelled from the spec: `filterTags` (shared tags helper, not among the
provided sources; the call site's comment reads "Return a new tag map filtered by
the specified tag names"). Entries whose key equals one of the names are dropped. -/
def filterTags (tags : List (String × String)) (names : List String) : List (String × String) :=
  tags.filter (fun kv => !(names.contains kv.1))

/-- Go `int32(v)` conversion of a (64-bit) `int`: wraps into the signed 32-bit range. -/
def toInt32 (v : Int) : Int :=
  (v + 2 ^ 31) % 2 ^ 32 - 2 ^ 31

/-! ## Scheduler job collection (`resource_arm_scheduler_job_collection.go`) -/

/-- Azure SDK `scheduler.Sku` (fields referenced by the adapter). -/
structure SchedulerSku where
  name : String

/-- Azure SDK `scheduler.JobMaxRecurrence`. -/
structure JobMaxRecurrence where
  frequency : String
  interval : Option Int
deriving DecidableEq, Repr

/-- Azure SDK `scheduler.JobCollectionQuota`. -/
structure JobCollectionQuota where
  maxJobCount : Option Int
  maxRecurrence : Option JobMaxRecurrence
deriving DecidableEq, Repr

/-- Azure SDK `scheduler.JobCollectionProperties` (fields referenced by the adapter). -/
structure JobCollectionProperties where
  sku : Option SchedulerSku
  state : String
  quota : Option JobCollectionQuota

/-- Azure SDK `scheduler.JobCollectionDefinition` (fields referenced by the adapter). -/
structure JobCollectionDefinition where
  id : Option String
  name : Option String
  location : Option String
  tags : List (String × String)
  properties : Option JobCollectionProperties

/-- Fallback branch of the interval shim in
`expandAzureArmSchedulerJobCollectionQuota`: the deprecated
`max_retry_interval` is used when it is present and positive. -/
def schedulerQuotaFallbackInterval (quotaBlock : List (String × Attr)) : Option Int :=
  match (mlookup quotaBlock "max_retry_interval").bind Attr.asInt with
  | some v => if v > 0 then some (toInt32 v) else none
  | none => none

/-- Interval selection in `expandAzureArmSchedulerJobCollectionQuota`: a present
and positive `max_recurrence_interval` wins, otherwise the deprecated field is
consulted. -/
def schedulerQuotaInterval (quotaBlock : List (String × Attr)) : Option Int :=
  match (mlookup quotaBlock "max_recurrence_interval").bind Attr.asInt with
  | some v => if v > 0 then some (toInt32 v) else schedulerQuotaFallbackInterval quotaBlock
  | none => schedulerQuotaFallbackInterval quotaBlock

/-- Embeds `expandAzureArmSchedulerJobCollectionQuota`. -/
def expandAzureArmSchedulerJobCollectionQuota (d : ResourceData) :
    Exec (Option JobCollectionQuota) :=
  let qb := d.getList "quota"
  if qb.length > 0 then
    match qb.head? with
    | some (Attr.m quotaBlock) =>
      Exec.ok (some
        { maxJobCount := ((mlookup quotaBlock "max_job_count").bind Attr.asInt).map toInt32
          maxRecurrence := some
            { frequency := ((mlookup quotaBlock "max_recurrence_frequency").bind Attr.asStr).getD ""
              interval := schedulerQuotaInterval quotaBlock } })
    | _ => Exec.crash
  else
    Exec.ok none

/-- Embeds `flattenAzureArmSchedulerJobCollectionQuota`. -/
def flattenAzureArmSchedulerJobCollectionQuota (quota : Option JobCollectionQuota) :
    Option (List Attr) :=
  match quota with
  | none => none
  | some q =>
    let countPart : List (String × Attr) :=
      match q.maxJobCount with
      | some v => [("max_job_count", Attr.i v)]
      | none => []
    let recurrencePart : List (String × Attr) :=
      match q.maxRecurrence with
      | some r =>
        (match r.interval with
         | some v => [("max_recurrence_interval", Attr.i v), ("max_retry_interval", Attr.i v)]
         | none => []) ++ [("max_recurrence_frequency", Attr.s r.frequency)]
      | none => []
    some [Attr.m (countPart ++ recurrencePart)]

/-- Environment for `resourceArmSchedulerJobCollectionRead`: the
`parseAzureResourceID` outcome for the stored ID (the helper is not among the
provided sources) and the remote GET. -/
structure SchedulerReadEnv where
  parsed : Except String ResourceID
  get : RemoteCall JobCollectionDefinition

/-- Embeds `resourceArmSchedulerJobCollectionRead`. -/
def resourceArmSchedulerJobCollectionRead (env : SchedulerReadEnv) (d : ResourceData) :
    CrudOutcome :=
  match env.parsed with
  | .error e => Exec.ok (d, some (AdapterError.goError e))
  | .ok rid =>
    match env.get.err with
    | some e =>
      if responseWasNotFound env.get.status then Exec.ok (d.setId "", none)
      else
        Exec.ok (d, some (AdapterError.errorf
          ("Error making Read request on Scheduler Job Collection: " ++ e)))
    | none =>
      let collection := env.get.value
      let d := d.set "name" (Attr.s (collection.name.getD ""))
      let d := d.set "resource_group_name" (Attr.s rid.resourceGroup)
      let d :=
        match collection.location with
        | some loc => d.set "location" (Attr.s (azureRMNormalizeLocation loc))
        | none => d
      let d := flattenAndSetTags d collection.tags
      match collection.properties with
      | some properties =>
        let d :=
          match properties.sku with
          | some sku => d.set "sku" (Attr.s sku.name)
          | none => d
        let d := d.set "state" (Attr.s properties.state)
        let d := d.set "quota"
          (Attr.l ((flattenAzureArmSchedulerJobCollectionQuota properties.quota).getD []))
        Exec.ok (d, none)
      | none => Exec.ok (d, none)

/-- Environment for `resourceArmSchedulerJobCollectionCreateUpdate`. -/
structure SchedulerCreateEnv where
  /-- `d.IsNewResource()` (framework state). -/
  isNew : Bool
  /-- The existence pre-check `client.Get(ctx, resourceGroup, name)`. -/
  precheck : RemoteCall JobCollectionDefinition
  /-- The write call `client.CreateOrUpdate`. -/
  write : RemoteCall JobCollectionDefinition
  /-- The confirming `client.Get` issued after the write. -/
  reread : RemoteCall JobCollectionDefinition
  /-- Environment for the delegated Read. -/
  readEnv : SchedulerReadEnv

/-- Body of `resourceArmSchedulerJobCollectionCreateUpdate` after the
new-resource import check: build the request (the quota expansion can panic on
malformed state), write, re-read, store the ID, delegate to Read. -/
def schedulerCreateBody (env : SchedulerCreateEnv) (d : ResourceData) : CrudOutcome :=
  match expandAzureArmSchedulerJobCollectionQuota d with
  | Exec.crash => Exec.crash
  | Exec.ok _quota =>
    match env.write.err with
    | some e =>
      Exec.ok (d, some (AdapterError.errorf
        ("Error creating/updating Scheduler Job Collection: " ++ e)))
    | none =>
      match env.reread.err with
      | some e =>
        Exec.ok (d, some (AdapterError.errorf
          ("Error reading Scheduler Job Collection after create/update: " ++ e)))
      | none =>
        match env.reread.value.id with
        | none => Exec.crash
        | some cid => resourceArmSchedulerJobCollectionRead env.readEnv (d.setId cid)

/-- `resp.ID != nil` half of the scheduler import check. -/
def schedulerCreateCheckId (env : SchedulerCreateEnv) (d : ResourceData) : CrudOutcome :=
  match env.precheck.value.id with
  | some i => Exec.ok (d, some (AdapterError.importAsExists "azurerm_scheduler_job_collection" i))
  | none => schedulerCreateBody env d

/-- Embeds `resourceArmSchedulerJobCollectionCreateUpdate`. -/
def resourceArmSchedulerJobCollectionCreateUpdate (env : SchedulerCreateEnv)
    (d : ResourceData) : CrudOutcome :=
  if env.isNew then
    match env.precheck.err with
    | some e =>
      if responseWasNotFound env.precheck.status then schedulerCreateCheckId env d
      else
        Exec.ok (d, some (AdapterError.errorf
          ("Error checking for the existence of Scheduler Job Collection: " ++ e)))
    | none => schedulerCreateCheckId env d
  else
    schedulerCreateBody env d

/-- Environment for `resourceArmSchedulerJobCollectionDelete`: the parse
outcome, the delete call, and `future.WaitForCompletionRef`. `futureStatus` is
the status of `future.Response()`, consulted by both not-found checks. -/
structure SchedulerDeleteEnv where
  parsed : Except String ResourceID
  deleteErr : Option String
  futureStatus : Option Nat
  waitErr : Option String

/-- Embeds `resourceArmSchedulerJobCollectionDelete`. -/
def resourceArmSchedulerJobCollectionDelete (env : SchedulerDeleteEnv) (d : ResourceData) :
    CrudOutcome :=
  match env.parsed with
  | .error e => Exec.ok (d, some (AdapterError.goError e))
  | .ok _ =>
    let deleteFailure : Option AdapterError :=
      match env.deleteErr with
      | some e =>
        if responseWasNotFound env.futureStatus then none
        else some (AdapterError.errorf
          ("Error issuing delete request for Scheduler Job Collection: " ++ e))
      | none => none
    match deleteFailure with
    | some e => Exec.ok (d, some e)
    | none =>
      match env.waitErr with
      | some e =>
        if responseWasNotFound env.futureStatus then Exec.ok (d, none)
        else
          Exec.ok (d, some (AdapterError.errorf
            ("Error waiting for deletion of Scheduler Job Collection: " ++ e)))
      | none => Exec.ok (d, none)

/-! ## EventHub consumer group (`resource_arm_eventhub_consumer_group.go`) -/

/-- Azure SDK `eventhub.ConsumerGroupProperties` (fields referenced by the adapter). -/
structure ConsumerGroupProperties where
  userMetadata : Option String

/-- Azure SDK `eventhub.ConsumerGroup` (fields referenced by the adapter). -/
structure ConsumerGroup where
  id : Option String
  properties : Option ConsumerGroupProperties

/-- Environment for `resourceArmEventHubConsumerGroupRead`. -/
structure EventHubCGReadEnv where
  parsed : Except String ResourceID
  get : RemoteCall ConsumerGroup

/-- Embeds `resourceArmEventHubConsumerGroupRead`. The source dereferences
`resp.ConsumerGroupProperties` without a nil check, which is a panic when the
remote payload has no properties. -/
def resourceArmEventHubConsumerGroupRead (env : EventHubCGReadEnv) (d : ResourceData) :
    CrudOutcome :=
  match env.parsed with
  | .error e => Exec.ok (d, some (AdapterError.goError e))
  | .ok rid =>
    match env.get.err with
    | some e =>
      if responseWasNotFound env.get.status then Exec.ok (d.setId "", none)
      else
        Exec.ok (d, some (AdapterError.errorf
          ("Error making Read request on Azure EventHub Consumer Group: " ++ e)))
    | none =>
      let d := d.set "name" (Attr.s (rid.pathGet "consumergroups"))
      let d := d.set "eventhub_name" (Attr.s (rid.pathGet "eventhubs"))
      let d := d.set "namespace_name" (Attr.s (rid.pathGet "namespaces"))
      let d := d.set "resource_group_name" (Attr.s rid.resourceGroup)
      match env.get.value.properties with
      | none => Exec.crash
      | some properties =>
        Exec.ok (d.set "user_metadata" (Attr.s (properties.userMetadata.getD "")), none)

/-- Environment for `resourceArmEventHubConsumerGroupCreateUpdate`. -/
structure EventHubCGCreateEnv where
  isNew : Bool
  precheck : RemoteCall ConsumerGroup
  write : RemoteCall ConsumerGroup
  reread : RemoteCall ConsumerGroup
  readEnv : EventHubCGReadEnv

/-- Body of `resourceArmEventHubConsumerGroupCreateUpdate` after the
new-resource import check. -/
def eventHubCGCreateBody (env : EventHubCGCreateEnv) (d : ResourceData) : CrudOutcome :=
  match env.write.err with
  | some e => Exec.ok (d, some (AdapterError.goError e))
  | none =>
    match env.reread.err with
    | some e => Exec.ok (d, some (AdapterError.goError e))
    | none =>
      match env.reread.value.id with
      | none =>
        Exec.ok (d, some (AdapterError.errorf "Cannot read EventHub Consumer Group ID"))
      | some cid => resourceArmEventHubConsumerGroupRead env.readEnv (d.setId cid)

/-- `resp.ID != nil` half of the eventhub consumer group import check. -/
def eventHubCGCreateCheckId (env : EventHubCGCreateEnv) (d : ResourceData) : CrudOutcome :=
  match env.precheck.value.id with
  | some i =>
    Exec.ok (d, some (AdapterError.importAsExists "azurerm_eventhub_consumer_group" i))
  | none => eventHubCGCreateBody env d

/-- Embeds `resourceArmEventHubConsumerGroupCreateUpdate`. -/
def resourceArmEventHubConsumerGroupCreateUpdate (env : EventHubCGCreateEnv)
    (d : ResourceData) : CrudOutcome :=
  if env.isNew then
    match env.precheck.err with
    | some e =>
      if responseWasNotFound env.precheck.status then eventHubCGCreateCheckId env d
      else
        Exec.ok (d, some (AdapterError.errorf
          ("Error checking for the existence of Consumer Group: " ++ e)))
    | none => eventHubCGCreateCheckId env d
  else
    eventHubCGCreateBody env d

/-! ## Metric alert rule (`src/unnamed/part_000`) -/

/-- Azure SDK `insights.BasicRuleDataSource` variants (`AsRuleMetricDataSource`
comma-ok narrowing). -/
inductive RuleDataSource where
  | metricSource (resourceURI : Option String) (metricName : Option String)
  | otherSource

/-- Azure SDK `insights.BasicRuleCondition` variants (`AsThresholdRuleCondition`
comma-ok narrowing). -/
inductive RuleCondition where
  | thresholdCond (operator : String) (threshold : Option Float) (windowSize : Option String)
      (timeAggregation : String) (dataSource : Option RuleDataSource)
  | otherCond

/-- Azure SDK `insights.BasicRuleAction` variants (`AsRuleEmailAction` /
`AsRuleWebhookAction` comma-ok narrowing). -/
inductive RuleAction where
  | emailAction (sendToServiceOwners : Option Bool) (customEmails : Option (List String))
  | webhookAction (serviceURI : Option String) (properties : Option (List (String × Option String)))
  | otherAction

/-- Azure SDK `insights.AlertRule` (fields referenced by the adapter). -/
structure AlertRule where
  description : Option String
  isEnabled : Option Bool
  condition : Option RuleCondition
  actions : Option (List RuleAction)

/-- Azure SDK `insights.AlertRuleResource` (fields referenced by the adapter). -/
structure AlertRuleResource where
  id : Option String
  location : Option String
  tags : List (String × String)
  alertRule : Option AlertRule

/-- Webhook properties copy loop in `resourceArmMetricAlertRuleRead`: keys other
than `$type` are copied, dereferencing the value pointer (a nil value is a panic). -/
def metricAlertWebhookPropsLoop : List (String × Option String) → Exec (List (String × String))
  | [] => Exec.ok []
  | (k, v) :: rest =>
    if k == "$type" then metricAlertWebhookPropsLoop rest
    else
      match v with
      | none => Exec.crash
      | some s =>
        match metricAlertWebhookPropsLoop rest with
        | Exec.crash => Exec.crash
        | Exec.ok ps => Exec.ok ((k, s) :: ps)

/-- Embeds the action-classification loop of `resourceArmMetricAlertRuleRead`:
each action is narrowed to an email or webhook action and flattened into the
corresponding block list. -/
def metricAlertActionsLoop :
    List RuleAction → List Attr → List Attr → Exec (List Attr × List Attr)
  | [], emailActions, webhookActions => Exec.ok (emailActions, webhookActions)
  | RuleAction.emailAction sendToOwners customEmails :: rest, emailActions, webhookActions =>
    match customEmails with
    | none => Exec.crash
    | some emails =>
      let block :=
        (match sendToOwners with
         | some owners => [("send_to_service_owners", Attr.b owners)]
         | none => []) ++ [("custom_emails", Attr.l (emails.map Attr.s))]
      metricAlertActionsLoop rest (emailActions ++ [Attr.m block]) webhookActions
  | RuleAction.webhookAction uri props :: rest, emailActions, webhookActions =>
    match uri with
    | none => Exec.crash
    | some serviceURI =>
      match
        (match props with
         | none => Exec.ok []
         | some kvs => metricAlertWebhookPropsLoop kvs) with
      | Exec.crash => Exec.crash
      | Exec.ok ps =>
        let block := [("service_uri", Attr.s serviceURI),
          ("properties", Attr.m (ps.map (fun kv => (kv.1, Attr.s kv.2))))]
        metricAlertActionsLoop rest emailActions (webhookActions ++ [Attr.m block])
  | RuleAction.otherAction :: rest, emailActions, webhookActions =>
    metricAlertActionsLoop rest emailActions webhookActions

/-- Environment for `resourceArmMetricAlertRuleRead`. -/
structure MetricAlertReadEnv where
  parsed : Except String ResourceID
  get : RemoteCall AlertRuleResource

/-- Flattening of the threshold condition inside `resourceArmMetricAlertRuleRead`
(dereferencing the threshold pointer is a panic when it is nil). -/
def metricAlertSetCondition (d : ResourceData) : Option RuleCondition → Exec ResourceData
  | some (RuleCondition.thresholdCond operator threshold windowSize timeAggregation dataSource) =>
    match threshold with
    | none => Exec.crash
    | some th =>
      let d := d.set "operator" (Attr.s operator)
      let d := d.set "threshold" (Attr.f th)
      let d := d.set "period" (Attr.s (windowSize.getD ""))
      let d := d.set "aggregation" (Attr.s timeAggregation)
      match dataSource with
      | some (RuleDataSource.metricSource resourceURI metricName) =>
        let d := d.set "resource_id" (Attr.s (resourceURI.getD ""))
        Exec.ok (d.set "metric_name" (Attr.s (metricName.getD "")))
      | some RuleDataSource.otherSource => Exec.ok d
      | none => Exec.ok d
  | some RuleCondition.otherCond => Exec.ok d
  | none => Exec.ok d

/-- Embeds `resourceArmMetricAlertRuleRead`. The source ranges over
`*alertRule.Actions` without a nil check, which is a panic when the actions
slice pointer is nil. -/
def resourceArmMetricAlertRuleRead (env : MetricAlertReadEnv) (d : ResourceData) :
    CrudOutcome :=
  match env.parsed with
  | .error e => Exec.ok (d, some (AdapterError.goError e))
  | .ok rid =>
    match env.get.err with
    | some e =>
      if responseWasNotFound env.get.status then Exec.ok (d.setId "", none)
      else
        Exec.ok (d, some (AdapterError.errorf
          ("Error making Read request on AzureRM Metric Alert Rule: " ++ e)))
    | none =>
      let resp := env.get.value
      let d := d.set "name" (Attr.s (rid.pathGet "alertrules"))
      let d := d.set "resource_group_name" (Attr.s rid.resourceGroup)
      let d :=
        match resp.location with
        | some loc => d.set "location" (Attr.s (azureRMNormalizeLocation loc))
        | none => d
      let afterRule : Exec ResourceData :=
        match resp.alertRule with
        | some alertRule =>
          let d := d.set "description" (Attr.s (alertRule.description.getD ""))
          let d := d.set "enabled" (Attr.b (alertRule.isEnabled.getD false))
          match metricAlertSetCondition d alertRule.condition with
          | Exec.crash => Exec.crash
          | Exec.ok d =>
            match alertRule.actions with
            | none => Exec.crash
            | some actions =>
              match metricAlertActionsLoop actions [] [] with
              | Exec.crash => Exec.crash
              | Exec.ok (emailActions, webhookActions) =>
                let d := d.set "email_action" (Attr.l emailActions)
                Exec.ok (d.set "webhook_action" (Attr.l webhookActions))
        | none => Exec.ok d
      match afterRule with
      | Exec.crash => Exec.crash
      | Exec.ok d =>
        let tagMap := filterTags resp.tags ["$type"]
        Exec.ok (flattenAndSetTags d tagMap, none)

/-- Errors produced by tag-map validation. -/
inductive TagVErr where
  /-- The source's `fmt.Errorf("the %q is not allowed as tag name", k)`. -/
  | notAllowedTagName (k : String)
  /-- Any error produced by the shared `validateAzureRMTags` helper. -/
  | other (msg : String)
deriving DecidableEq, Repr

/-- Go `strings.EqualFold` restricted to ASCII case folding (the reserved key
`$type` is ASCII). -/
def goEqualFold (a b : String) : Bool :=
  a.data.map Char.toLower == b.data.map Char.toLower

/-- Embeds `validateMetricAlertRuleTags`. The shared `validateAzureRMTags`
helper is not among the provided sources; its result (warnings and errors) is
taken as the `base` input, and the function appends one reserved-name error per
tag key equal to `$type` under case folding. -/
def validateMetricAlertRuleTags (base : List String × List TagVErr)
    (tagsMap : List (String × Attr)) : List String × List TagVErr :=
  (base.1,
    base.2 ++ (tagsMap.filter (fun kv => goEqualFold kv.1 "$type")).map
      (fun kv => TagVErr.notAllowedTagName kv.1))

/-! ## Data lake store file (`src/unnamed/part_001`, first unit) -/

/-- Character-level worker for Go `strings.Replace(s, pat, rep, -1)`; the fuel
argument (the input length) only discharges termination and never runs out for a
non-empty pattern. -/
def goReplaceAllAux (pat rep : List Char) : Nat → List Char → List Char
  | _, [] => []
  | 0, l => l
  | fuel + 1, c :: cs =>
    if pat ≠ [] ∧ pat.isPrefixOf (c :: cs) then
      rep ++ goReplaceAllAux pat rep fuel ((c :: cs).drop pat.length)
    else
      c :: goReplaceAllAux pat rep fuel cs

/-- Go `strings.Replace(s, pat, rep, -1)` for a non-empty pattern. -/
def goReplaceAll (s pat rep : String) : String :=
  ⟨goReplaceAllAux pat.data rep.data s.data.length s.data⟩

/-- Splits a URL authority-plus-path string at the first `/`: the host is the
segment before it and the path is the remainder including it. -/
def urlSplitLoop : List Char → List Char → List Char × List Char
  | [], acc => (acc.reverse, [])
  | c :: rest, acc =>
    if c = '/' then (acc.reverse, c :: rest) else urlSplitLoop rest (c :: acc)

/-- Modelled from the spec in part: Go `url.Parse` (external library) applied to
`"https://" ++ input` as in `parseDataLakeStoreFileId`; for the identifiers this
adapter builds (`host/path`, no query or fragment), it yields the host before
the first `/` and the path from it on. -/
def goURLHostPath (input : String) : String × String :=
  let hp := urlSplitLoop input.data []
  (⟨hp.1⟩, ⟨hp.2⟩)

/-- Result of `parseDataLakeStoreFileId`. -/
structure DataLakeStoreFileId where
  storageAccountName : String
  filePath : String
deriving DecidableEq, Repr

/-- Embeds `parseDataLakeStoreFileId`. -/
def parseDataLakeStoreFileId (input : String) (suffix : String) :
    Except String DataLakeStoreFileId :=
  let hp := goURLHostPath input
  Except.ok
    { storageAccountName := goReplaceAll hp.1 ("." ++ suffix) ""
      filePath := hp.2 }

/-- Environment for `resourceArmDataLakeStoreFileRead`. -/
structure DataLakeFileReadEnv where
  /-- `client.AdlsFileSystemDNSSuffix`. -/
  suffix : String
  /-- `client.GetFileStatus` (only status and error are consulted). -/
  get : RemoteCall Unit

/-- Embeds `resourceArmDataLakeStoreFileRead`. -/
def resourceArmDataLakeStoreFileRead (env : DataLakeFileReadEnv) (d : ResourceData) :
    CrudOutcome :=
  match parseDataLakeStoreFileId d.id env.suffix with
  | .error e => Exec.ok (d, some (AdapterError.goError e))
  | .ok fid =>
    match env.get.err with
    | some e =>
      if responseWasNotFound env.get.status then Exec.ok (d.setId "", none)
      else
        Exec.ok (d, some (AdapterError.errorf
          ("Error making Read request on Azure Data Lake Store File: " ++ e)))
    | none =>
      let d := d.set "account_name" (Attr.s fid.storageAccountName)
      Exec.ok (d.set "remote_file_path" (Attr.s fid.filePath), none)

/-- Environment for `resourceArmDataLakeStoreFileCreate`. -/
structure DataLakeFileCreateEnv where
  /-- What a file-status existence pre-check against the remote would report.
  The source's import pre-check is commented out (part_001 lines 67-80), so the
  create body never consults this field. -/
  existing : RemoteCall Bool
  /-- `os.Open(localFilePath)`. -/
  openErr : Option String
  /-- `ioutil.ReadAll(file)`. -/
  readAllErr : Option String
  /-- `client.Create`. -/
  createErr : Option String
  /-- `client.AdlsFileSystemDNSSuffix`. -/
  suffix : String
  /-- Environment for the delegated Read. -/
  readEnv : DataLakeFileReadEnv

/-- Embeds `resourceArmDataLakeStoreFileCreate`. -/
def resourceArmDataLakeStoreFileCreate (env : DataLakeFileCreateEnv) (d : ResourceData) :
    CrudOutcome :=
  let accountName := d.getStr "account_name"
  let remoteFilePath := d.getStr "remote_file_path"
  let _localFilePath := d.getStr "local_file_path"
  match env.openErr with
  | some e => Exec.ok (d, some (AdapterError.errorf ("error opening file: " ++ e)))
  | none =>
    match env.readAllErr with
    | some e => Exec.ok (d, some (AdapterError.goError e))
    | none =>
      match env.createErr with
      | some e =>
        Exec.ok (d, some (AdapterError.errorf
          ("Error issuing create request for Data Lake Store File: " ++ e)))
      | none =>
        let id := accountName ++ "." ++ env.suffix ++ remoteFilePath
        resourceArmDataLakeStoreFileRead env.readEnv (d.setId id)

/-! ## Role assignment (`src/unnamed/part_001`, second unit) -/

/-- Azure SDK `authorization.RoleAssignmentPropertiesWithScope`. -/
structure RoleAssignmentProps where
  scope : Option String
  roleDefinitionID : Option String
  principalID : Option String

/-- Azure SDK `authorization.RoleAssignment` (fields referenced by the adapter). -/
structure RoleAssignment where
  id : Option String
  name : Option String
  properties : Option RoleAssignmentProps

/-- Azure SDK `authorization.RoleDefinition` (fields referenced by the adapter). -/
structure RoleDefinition where
  id : Option String

/-- Terraform helper `resource.RetryError` classification. -/
inductive RetryError where
  | retryable (msg : String)
  | nonRetryable (msg : String)
deriving DecidableEq, Repr

/-- Embeds the closure returned by `retryRoleAssignmentsClient`: one attempt
invokes the remote create (whose outcome for that attempt is the argument) and
classifies any error as retryable; a nil error ends the attempt successfully. -/
def retryRoleAssignmentsClient (createErr : Option String) : Option RetryError :=
  match createErr with
  | some e => some (RetryError.retryable e)
  | none => none

/-- Modelled from the spec: the Terraform helper `resource.Retry` (external
framework code, a black box per §1; §5: every remote call is bounded by a
deadline). The retry function is re-invoked while it reports a retryable error,
the number of attempts bounded by a fuel derived from the operation timeout; a
`none` step result ends the loop successfully, a non-retryable error or an
exhausted bound surfaces the error. -/
def resourceRetry (fuel : Nat) (step : Nat → Option RetryError) (i : Nat) : Option String :=
  match fuel with
  | 0 => some "retry timeout"
  | n + 1 =>
    match step i with
    | none => none
    | some (RetryError.nonRetryable e) => some e
    | some (RetryError.retryable e) =>
      match n with
      | 0 => some e
      | _ + 1 => resourceRetry n step (i + 1)

/-- Environment for `resourceArmRoleAssignmentRead`. -/
structure RoleAssignmentReadEnv where
  /-- `client.GetByID(ctx, d.Id())`. -/
  get : RemoteCall RoleAssignment

/-- Embeds `resourceArmRoleAssignmentRead`. -/
def resourceArmRoleAssignmentRead (env : RoleAssignmentReadEnv) (d : ResourceData) :
    CrudOutcome :=
  match env.get.err with
  | some e =>
    if responseWasNotFound env.get.status then Exec.ok (d.setId "", none)
    else Exec.ok (d, some (AdapterError.errorf ("Error loading Role Assignment: " ++ e)))
  | none =>
    let resp := env.get.value
    let d := d.set "name" (Attr.s (resp.name.getD ""))
    match resp.properties with
    | some props =>
      let d := d.set "scope" (Attr.s (props.scope.getD ""))
      let d := d.set "role_definition_id" (Attr.s (props.roleDefinitionID.getD ""))
      Exec.ok (d.set "principal_id" (Attr.s (props.principalID.getD "")), none)
    | none => Exec.ok (d, none)

/-- Environment for `resourceArmRoleAssignmentCreate`. -/
structure RoleAssignmentCreateEnv where
  /-- `roleDefinitionsClient.List` result values, consulted only when
  `role_definition_name` is used. -/
  roleDefList : Except String (List RoleDefinition)
  /-- The existence pre-check `roleAssignmentsClient.Get(ctx, scope, name)`,
  consulted only when the name is caller-supplied. -/
  precheck : RemoteCall RoleAssignment
  /-- `uuid.GenerateUUID()`, consulted only when the name is empty. -/
  uuid : Except String String
  /-- Outcome of the remote `client.Create` on each retry attempt. -/
  attempts : Nat → Option String
  /-- Attempt bound derived from the create timeout. -/
  fuel : Nat
  /-- The confirming `roleAssignmentsClient.Get` issued after the retry loop. -/
  reread : RemoteCall RoleAssignment
  /-- Environment for the delegated Read. -/
  readEnv : RoleAssignmentReadEnv

/-- Role definition ID resolution at the top of `resourceArmRoleAssignmentCreate`:
an explicit `role_definition_id` wins; otherwise `role_definition_name` is looked
up remotely (exactly one match required; its nil ID would be a panic); otherwise
the operation errors. -/
def roleAssignmentRoleDefinitionId (env : RoleAssignmentCreateEnv) (d : ResourceData) :
    Exec (Except AdapterError String) :=
  match d.getOkStr "role_definition_id" with
  | some v => Exec.ok (Except.ok v)
  | none =>
    match d.getOkStr "role_definition_name" with
    | some _ =>
      match env.roleDefList with
      | .error e =>
        Exec.ok (Except.error (AdapterError.errorf ("Error loading Role Definition List: " ++ e)))
      | .ok defs =>
        if defs.length ≠ 1 then
          Exec.ok (Except.error
            (AdapterError.errorf "Error loading Role Definition List: could not find role"))
        else
          match defs.head? with
          | some rdef =>
            match rdef.id with
            | some rid => Exec.ok (Except.ok rid)
            | none => Exec.crash
          | none => Exec.crash
    | none =>
      Exec.ok (Except.error (AdapterError.errorf
        "Error: either role_definition_id or role_definition_name needs to be set"))

/-- Tail of `resourceArmRoleAssignmentCreate` once the assignment name is fixed:
the bounded retry loop around the remote create, the confirming re-read, storing
the ID and delegating to Read. -/
def roleAssignmentAfterName (env : RoleAssignmentCreateEnv) (d : ResourceData) : CrudOutcome :=
  match resourceRetry env.fuel (fun i => retryRoleAssignmentsClient (env.attempts i)) 0 with
  | some e => Exec.ok (d, some (AdapterError.goError e))
  | none =>
    match env.reread.err with
    | some e => Exec.ok (d, some (AdapterError.goError e))
    | none =>
      match env.reread.value.id with
      | none => Exec.ok (d, some (AdapterError.errorf "Cannot read Role Assignment ID"))
      | some rid => resourceArmRoleAssignmentRead env.readEnv (d.setId rid)

/-- `resp.ID != nil` half of the role assignment import check. -/
def roleAssignmentCheckId (env : RoleAssignmentCreateEnv) (d : ResourceData) : CrudOutcome :=
  match env.precheck.value.id with
  | some rid => Exec.ok (d, some (AdapterError.importAsExists "azurerm_role_assignment" rid))
  | none => roleAssignmentAfterName env d

/-- Embeds `resourceArmRoleAssignmentCreate`. -/
def resourceArmRoleAssignmentCreate (env : RoleAssignmentCreateEnv) (d : ResourceData) :
    CrudOutcome :=
  let name := d.getStr "name"
  let _scope := d.getStr "scope"
  match roleAssignmentRoleDefinitionId env d with
  | Exec.crash => Exec.crash
  | Exec.ok (Except.error e) => Exec.ok (d, some e)
  | Exec.ok (Except.ok roleDefinitionId) =>
    let d := d.set "role_definition_id" (Attr.s roleDefinitionId)
    let _principalId := d.getStr "principal_id"
    if name ≠ "" then
      match env.precheck.err with
      | some e =>
        if responseWasNotFound env.precheck.status then roleAssignmentCheckId env d
        else
          Exec.ok (d, some (AdapterError.errorf
            ("Error checking for the existence of Role Assignment: " ++ e)))
      | none => roleAssignmentCheckId env d
    else
      match env.uuid with
      | .error e =>
        Exec.ok (d, some (AdapterError.errorf
          ("Error generating UUID for Role Assignment: " ++ e)))
      | .ok _u => roleAssignmentAfterName env d

/-! ## DNS AAAA record (`src/unnamed/part_004`) -/

/-- Azure SDK `dns.AaaaRecord`. -/
structure AaaaRecord where
  ipv6Address : Option String
deriving DecidableEq, Repr

/-- Azure SDK `dns.RecordSet` (fields referenced by the adapter). -/
structure RecordSet where
  id : Option String
  ttl : Option Int
  aaaaRecords : Option (List AaaaRecord)
  metadata : List (String × String)

/-- Accumulating loop of `flattenAzureRmDnsAaaaRecords`: records whose address
pointer is non-nil contribute the dereferenced address, in order. -/
def dnsAaaaFlattenLoop : List AaaaRecord → List String → List String
  | [], results => results
  | r :: rest, results =>
    match r.ipv6Address with
    | some s => dnsAaaaFlattenLoop rest (results ++ [s])
    | none => dnsAaaaFlattenLoop rest results

/-- Embeds `flattenAzureRmDnsAaaaRecords`. -/
def flattenAzureRmDnsAaaaRecords (records : Option (List AaaaRecord)) : List String :=
  match records with
  | none => []
  | some rs => dnsAaaaFlattenLoop rs []

/-- Embeds `expandAzureRmDnsAaaaRecords`: each string from the `records` set
becomes a record holding a pointer to it; the returned error is always nil. -/
def expandAzureRmDnsAaaaRecords (d : ResourceData) : List AaaaRecord × Option AdapterError :=
  let recordStrings := d.getList "records"
  (recordStrings.map (fun v => { ipv6Address := some (v.asStr.getD "") }), none)

/-- Environment for `resourceArmDnsAaaaRecordRead`. -/
structure DnsAaaaReadEnv where
  parsed : Except String ResourceID
  get : RemoteCall RecordSet

/-- Embeds `resourceArmDnsAaaaRecordRead`. -/
def resourceArmDnsAaaaRecordRead (env : DnsAaaaReadEnv) (d : ResourceData) : CrudOutcome :=
  match env.parsed with
  | .error e => Exec.ok (d, some (AdapterError.goError e))
  | .ok rid =>
    match env.get.err with
    | some e =>
      if responseWasNotFound env.get.status then Exec.ok (d.setId "", none)
      else Exec.ok (d, some (AdapterError.errorf ("Error reading DNS AAAA record: " ++ e)))
    | none =>
      let resp := env.get.value
      let d := d.set "name" (Attr.s (rid.pathGet "AAAA"))
      let d := d.set "resource_group_name" (Attr.s rid.resourceGroup)
      let d := d.set "zone_name" (Attr.s (rid.pathGet "dnszones"))
      let d := d.set "ttl" (Attr.i (resp.ttl.getD 0))
      let d := d.set "records"
        (Attr.l ((flattenAzureRmDnsAaaaRecords resp.aaaaRecords).map Attr.s))
      Exec.ok (flattenAndSetTags d resp.metadata, none)

/-- Environment for `resourceArmDnsAaaaRecordCreateOrUpdate`. The adapter uses
the `CreateOrUpdate` response itself to obtain the stored ID; it issues no
confirming GET of its own (the delegated Read performs the next GET). -/
structure DnsAaaaCreateEnv where
  isNew : Bool
  precheck : RemoteCall RecordSet
  write : RemoteCall RecordSet
  readEnv : DnsAaaaReadEnv

/-- Body of `resourceArmDnsAaaaRecordCreateOrUpdate` after the
new-resource import check. -/
def dnsAaaaCreateBody (env : DnsAaaaCreateEnv) (d : ResourceData) : CrudOutcome :=
  let _records := expandAzureRmDnsAaaaRecords d
  match env.write.err with
  | some e => Exec.ok (d, some (AdapterError.goError e))
  | none =>
    match env.write.value.id with
    | none => Exec.ok (d, some (AdapterError.errorf "Cannot read DNS AAAA Record ID"))
    | some cid => resourceArmDnsAaaaRecordRead env.readEnv (d.setId cid)

/-- `resp.ID != nil` half of the DNS AAAA import check. -/
def dnsAaaaCreateCheckId (env : DnsAaaaCreateEnv) (d : ResourceData) : CrudOutcome :=
  match env.precheck.value.id with
  | some i => Exec.ok (d, some (AdapterError.importAsExists "azurerm_dns_aaaa_record" i))
  | none => dnsAaaaCreateBody env d

/-- Embeds `resourceArmDnsAaaaRecordCreateOrUpdate`. -/
def resourceArmDnsAaaaRecordCreateOrUpdate (env : DnsAaaaCreateEnv) (d : ResourceData) :
    CrudOutcome :=
  if env.isNew then
    match env.precheck.err with
    | some e =>
      if responseWasNotFound env.precheck.status then dnsAaaaCreateCheckId env d
      else
        Exec.ok (d, some (AdapterError.errorf
          ("Error checking for the existence of DNS AAAA Record: " ++ e)))
    | none => dnsAaaaCreateCheckId env d
  else
    dnsAaaaCreateBody env d

/-- Environment for `resourceArmDnsAaaaRecordDelete`: the delete response status
(`none` for a nil response object, whose field access is a panic) and error. -/
structure DnsAaaaDeleteEnv where
  parsed : Except String ResourceID
  status : Option Nat
  err : Option String

/-- Embeds `resourceArmDnsAaaaRecordDelete`: the operation fails whenever the
delete response status differs from 200 OK. -/
def resourceArmDnsAaaaRecordDelete (env : DnsAaaaDeleteEnv) (d : ResourceData) :
    CrudOutcome :=
  match env.parsed with
  | .error e => Exec.ok (d, some (AdapterError.goError e))
  | .ok _ =>
    match env.status with
    | none => Exec.crash
    | some code =>
      if code ≠ 200 then
        Exec.ok (d, some (AdapterError.errorf "Error deleting DNS AAAA Record"))
      else Exec.ok (d, none)

/-! ## Key vault key (`src/unnamed/part_003`), Delete operation -/

/-- Result of `parseKeyVaultChildID` (helper not among the provided sources;
its outcome is taken as an environment input). -/
structure KeyVaultChildId where
  keyVaultBaseUrl : String
  name : String
  version : String

/-- Environment for `resourceArmKeyVaultKeyDelete`. -/
structure KeyVaultKeyDeleteEnv where
  parsed : Except String KeyVaultChildId
  /-- `client.DeleteKey`. -/
  deleteErr : Option String

/-- Embeds `resourceArmKeyVaultKeyDelete`: the error of the remote delete call
is returned verbatim, with no not-found handling. -/
def resourceArmKeyVaultKeyDelete (env : KeyVaultKeyDeleteEnv) (d : ResourceData) :
    CrudOutcome :=
  match env.parsed with
  | .error e => Exec.ok (d, some (AdapterError.goError e))
  | .ok _ => Exec.ok (d, env.deleteErr.map AdapterError.goError)

/-! ## Log analytics solution (`src/unnamed/part_002`) -/

/-- Boolean check that the first list leads the second (Go `strings.HasPrefix`
on the character level). -/
def leadsWith : List Char → List Char → Bool
  | [], _ => true
  | _ :: _, [] => false
  | p :: ps, c :: cs => p == c && leadsWith ps cs

/-- Go `strings.TrimPrefix(s, pre)`. -/
def goTrimLead (s pre : String) : String :=
  if leadsWith pre.data s.data then ⟨s.data.drop pre.data.length⟩ else s

/-- Go `strings.TrimSuffix(s, suf)`. -/
def goTrimTrail (s suf : String) : String :=
  if leadsWith suf.data.reverse s.data.reverse then
    ⟨(s.data.reverse.drop suf.data.length).reverse⟩
  else s

/-- Go `strings.Contains(s, sep)` for a one-character separator. -/
def goContains (s : String) (c : Char) : Bool :=
  s.data.any (fun x => x == c)

/-- Character-level worker for Go `strings.Split` with a one-character separator. -/
def goSplitCharLoop (sep : Char) : List Char → List Char → List String
  | [], acc => [acc.reverse.asString]
  | c :: rest, acc =>
    if c = sep then acc.reverse.asString :: goSplitCharLoop sep rest []
    else goSplitCharLoop sep rest (c :: acc)

/-- Go `strings.Split(s, sep)` for a one-character separator. -/
def goSplit (s : String) (sep : Char) : List String :=
  goSplitCharLoop sep s.data []

/-- Azure SDK `operationsmanagement.SolutionPlan`. -/
structure SolutionPlan where
  name : Option String
  publisher : Option String
  promotionCode : Option String
  product : Option String
deriving DecidableEq, Repr

/-- Azure SDK `operationsmanagement.SolutionProperties` (fields referenced by
the adapter). -/
structure SolutionProperties where
  workspaceResourceID : Option String

/-- Azure SDK `operationsmanagement.Solution` (fields referenced by the adapter). -/
structure Solution where
  id : Option String
  name : Option String
  location : Option String
  plan : Option SolutionPlan
  properties : Option SolutionProperties

/-- Embeds `expandAzureRmLogAnalyticsSolutionPlan`: indexing `plans[0]` panics
on an empty plan list; the block's fields are schema-declared strings. -/
def expandAzureRmLogAnalyticsSolutionPlan (d : ResourceData) : Exec SolutionPlan :=
  let plans := d.getList "plan"
  match plans.head? with
  | some (Attr.m plan) =>
    Exec.ok
      { name := some (((mlookup plan "name").bind Attr.asStr).getD "")
        promotionCode := some (((mlookup plan "promotion_code").bind Attr.asStr).getD "")
        publisher := some (((mlookup plan "publisher").bind Attr.asStr).getD "")
        product := some (((mlookup plan "product").bind Attr.asStr).getD "") }
  | _ => Exec.crash

/-- Embeds `flattenAzureRmLogAnalyticsSolutionPlan`: all four pointer fields are
dereferenced unconditionally. -/
def flattenAzureRmLogAnalyticsSolutionPlan (plan : SolutionPlan) : Exec (List Attr) :=
  match plan.name, plan.product, plan.promotionCode, plan.publisher with
  | some n, some prod, some promo, some pub =>
    Exec.ok [Attr.m [("name", Attr.s n), ("product", Attr.s prod),
      ("promotion_code", Attr.s promo), ("publisher", Attr.s pub)]]
  | _, _, _, _ => Exec.crash

/-- The format error both malformed-name branches of
`resourceArmLogAnalyticsSolutionRead` return. -/
def logAnalyticsSolutionNameFormatError : AdapterError :=
  AdapterError.errorf
    "Error making Read request on AzureRM Log Analytics solutions: isn't in expected format Solution(WorkspaceName)"

/-- Environment for `resourceArmLogAnalyticsSolutionRead`. -/
structure LogAnalyticsReadEnv where
  parsed : Except String ResourceID
  get : RemoteCall Solution

/-- Embeds `resourceArmLogAnalyticsSolutionRead`, including the decomposition of
the remote name `SolutionName(WorkspaceName)` back into `solution_name` and
`workspace_name`. -/
def resourceArmLogAnalyticsSolutionRead (env : LogAnalyticsReadEnv) (d : ResourceData) :
    CrudOutcome :=
  match env.parsed with
  | .error e => Exec.ok (d, some (AdapterError.goError e))
  | .ok rid =>
    match env.get.err with
    | some e =>
      if responseWasNotFound env.get.status then Exec.ok (d.setId "", none)
      else
        Exec.ok (d, some (AdapterError.errorf
          ("Error making Read request on AzureRM Log Analytics solutions: " ++ e)))
    | none =>
      let resp := env.get.value
      match resp.plan with
      | none =>
        Exec.ok (d, some (AdapterError.errorf
          "Error making Read request on AzureRM Log Analytics solutions: Plan was nil"))
      | some plan =>
        let d := d.set "resource_group_name" (Attr.s rid.resourceGroup)
        let d :=
          match resp.location with
          | some loc => d.set "location" (Attr.s (azureRMNormalizeLocation loc))
          | none => d
        let named : Except AdapterError ResourceData :=
          match resp.name with
          | some n =>
            if goContains n '(' then
              match goSplit n '(' with
              | [p0, p1] =>
                let d := d.set "solution_name" (Attr.s p0)
                let workspaceName := goTrimTrail (goTrimLead p1 "(") ")"
                Except.ok (d.set "workspace_name" (Attr.s workspaceName))
              | _ => Except.error logAnalyticsSolutionNameFormatError
            else Except.error logAnalyticsSolutionNameFormatError
          | none => Except.error logAnalyticsSolutionNameFormatError
        match named with
        | .error e => Exec.ok (d, some e)
        | .ok d =>
          let d :=
            match resp.properties with
            | some props =>
              d.set "workspace_resource_id" (Attr.s (props.workspaceResourceID.getD ""))
            | none => d
          match flattenAzureRmLogAnalyticsSolutionPlan plan with
          | Exec.crash => Exec.crash
          | Exec.ok planFlat => Exec.ok (d.set "plan" (Attr.l planFlat), none)

/-- Environment for `resourceArmLogAnalyticsSolutionCreateUpdate`. -/
structure LogAnalyticsCreateEnv where
  isNew : Bool
  precheck : RemoteCall Solution
  /-- `client.CreateOrUpdate`; `status` is `res.Response()` (a nil response
  object makes the status check a panic). -/
  write : RemoteCall Solution
  reread : RemoteCall Solution
  readEnv : LogAnalyticsReadEnv

/-- Outcome of the log analytics Create/Update together with the name the
adapter passed to every remote call. -/
structure LogAnalyticsCreateOutcome where
  remoteName : String
  result : CrudOutcome

/-- Body of `resourceArmLogAnalyticsSolutionCreateUpdate` after the
new-resource import check, including the 201-workaround around the write call. -/
def logAnalyticsCreateBody (env : LogAnalyticsCreateEnv) (d : ResourceData) : CrudOutcome :=
  match expandAzureRmLogAnalyticsSolutionPlan d with
  | Exec.crash => Exec.crash
  | Exec.ok _plan =>
    let writeFailure : Exec (Option AdapterError) :=
      match env.write.err with
      | some e =>
        match env.write.status with
        | none => Exec.crash
        | some code =>
          if code ≠ 201 then Exec.ok (some (AdapterError.goError e))
          else Exec.ok none
      | none => Exec.ok none
    match writeFailure with
    | Exec.crash => Exec.crash
    | Exec.ok (some e) => Exec.ok (d, some e)
    | Exec.ok none =>
      match env.reread.err with
      | some e =>
        Exec.ok (d, some (AdapterError.errorf
          ("Error retrieving Log Analytics Solution: " ++ e)))
      | none =>
        match env.reread.value.id with
        | none => Exec.ok (d, some (AdapterError.errorf "Cannot read Log Analytics Solution ID"))
        | some cid => resourceArmLogAnalyticsSolutionRead env.readEnv (d.setId cid)

/-- `resp.ID != nil` half of the log analytics import check. -/
def logAnalyticsCreateCheckId (env : LogAnalyticsCreateEnv) (d : ResourceData) : CrudOutcome :=
  match env.precheck.value.id with
  | some i =>
    Exec.ok (d, some (AdapterError.importAsExists "azurerm_log_analytics_solution" i))
  | none => logAnalyticsCreateBody env d

/-- Embeds `resourceArmLogAnalyticsSolutionCreateUpdate`. The remote name is
composed as `solution_name(workspace_name)` and recorded in the outcome. -/
def resourceArmLogAnalyticsSolutionCreateUpdate (env : LogAnalyticsCreateEnv)
    (d : ResourceData) : LogAnalyticsCreateOutcome :=
  let solutionName := d.getStr "solution_name"
  let workspaceName := d.getStr "workspace_name"
  let name := solutionName ++ "(" ++ workspaceName ++ ")"
  { remoteName := name
    result :=
      if env.isNew then
        match env.precheck.err with
        | some e =>
          if responseWasNotFound env.precheck.status then logAnalyticsCreateCheckId env d
          else
            Exec.ok (d, some (AdapterError.errorf
              ("Error checking for the existence of Log Analytics Solution: " ++ e)))
        | none => logAnalyticsCreateCheckId env d
      else
        logAnalyticsCreateBody env d }

/-! ## Traffic manager profile (`resource_arm_traffic_manager_profile.go`),
expand/flatten helper pairs -/

/-- Azure SDK `trafficmanager.MonitorConfig` (fields referenced by the adapter). -/
structure MonitorConfig where
  protocol : String
  port : Option Int
  path : Option String
deriving DecidableEq, Repr

/-- Azure SDK `trafficmanager.DNSConfig` (fields referenced by the adapter). -/
structure TMDNSConfig where
  relativeName : Option String
  ttl : Option Int
deriving DecidableEq, Repr

/-- Embeds `expandArmTrafficManagerMonitorConfig`: indexing `monitorSets[0]`
panics on an empty set, and the single-valued assertions on `protocol`, `port`
and `path` panic when the key is missing or mistyped. -/
def expandArmTrafficManagerMonitorConfig (d : ResourceData) : Exec MonitorConfig :=
  let monitorSets := d.getList "monitor_config"
  match monitorSets.head? with
  | some (Attr.m monitor) =>
    match (mlookup monitor "protocol").bind Attr.asStr,
        (mlookup monitor "port").bind Attr.asInt,
        (mlookup monitor "path").bind Attr.asStr with
    | some proto, some port, some path =>
      Exec.ok { protocol := proto, port := some port, path := some path }
    | _, _, _ => Exec.crash
  | _ => Exec.crash

/-- Embeds `expandArmTrafficManagerDNSConfig`. -/
def expandArmTrafficManagerDNSConfig (d : ResourceData) : Exec TMDNSConfig :=
  let dnsSets := d.getList "dns_config"
  match dnsSets.head? with
  | some (Attr.m dns) =>
    match (mlookup dns "relative_name").bind Attr.asStr,
        (mlookup dns "ttl").bind Attr.asInt with
    | some name, some ttl => Exec.ok { relativeName := some name, ttl := some ttl }
    | _, _ => Exec.crash
  | _ => Exec.crash

/-- Embeds `flattenAzureRMTrafficManagerProfileDNSConfig`: both pointer fields
are dereferenced unconditionally. -/
def flattenAzureRMTrafficManagerProfileDNSConfig (dns : TMDNSConfig) : Exec (List Attr) :=
  match dns.relativeName, dns.ttl with
  | some name, some ttl =>
    Exec.ok [Attr.m [("relative_name", Attr.s name), ("ttl", Attr.i ttl)]]
  | _, _ => Exec.crash

/-- Embeds `flattenAzureRMTrafficManagerProfileMonitorConfig`: the port pointer
is dereferenced unconditionally, the path only when non-nil. -/
def flattenAzureRMTrafficManagerProfileMonitorConfig (cfg : MonitorConfig) :
    Exec (List Attr) :=
  match cfg.port with
  | none => Exec.crash
  | some port =>
    let result := [("protocol", Attr.s cfg.protocol), ("port", Attr.i port)]
    let result :=
      match cfg.path with
      | some path => result ++ [("path", Attr.s path)]
      | none => result
    Exec.ok [Attr.m result]

/-! ## Load balancer lookup helpers (`loadbalancer.go`) -/

/-- Azure SDK `network.FrontendIPConfiguration` (field referenced by the helper). -/
structure FrontendIPConfiguration where
  name : Option String
deriving DecidableEq, Repr

/-- Azure SDK `network.LoadBalancingRule` (field referenced by the helper). -/
structure LoadBalancingRule where
  name : Option String
deriving DecidableEq, Repr

/-- Azure SDK `network.LoadBalancerPropertiesFormat` (fields referenced by the
helpers). -/
structure LoadBalancerPropertiesFormat where
  frontendIPConfigurations : Option (List FrontendIPConfiguration)
  loadBalancingRules : Option (List LoadBalancingRule)

/-- Azure SDK `network.LoadBalancer` (field referenced by the helpers). -/
structure LoadBalancer where
  loadBalancerPropertiesFormat : Option LoadBalancerPropertiesFormat

/-- Indexed search loop both load balancer lookup helpers share: the first
element satisfying the test is returned with its index, else `(nil, -1, false)`. -/
def lbFindLoop {α : Type} (test : α → Bool) : List α → Int → Option α × Int × Bool
  | [], _ => (none, -1, false)
  | x :: rest, i => if test x then (some x, i, true) else lbFindLoop test rest (i + 1)

/-- Embeds `findLoadBalancerFrontEndIpConfigurationByName` (a nil load balancer,
nil properties or nil collection yields `(nil, -1, false)`). -/
def findLoadBalancerFrontEndIpConfigurationByName (lb : Option LoadBalancer) (name : String) :
    Option FrontendIPConfiguration × Int × Bool :=
  match lb with
  | none => (none, -1, false)
  | some l =>
    match l.loadBalancerPropertiesFormat with
    | none => (none, -1, false)
    | some props =>
      match props.frontendIPConfigurations with
      | none => (none, -1, false)
      | some configs => lbFindLoop (fun feip => feip.name == some name) configs 0

/-- Embeds `findLoadBalancerRuleByName`. -/
def findLoadBalancerRuleByName (lb : Option LoadBalancer) (name : String) :
    Option LoadBalancingRule × Int × Bool :=
  match lb with
  | none => (none, -1, false)
  | some l =>
    match l.loadBalancerPropertiesFormat with
    | none => (none, -1, false)
    | some props =>
      match props.loadBalancingRules with
      | none => (none, -1, false)
      | some rules => lbFindLoop (fun lbr => lbr.name == some name) rules 0

/-! ## Helper lemmas -/

@[simp]
theorem ResourceData.id_set (d : ResourceData) (k : String) (v : Attr) :
    (d.set k v).id = d.id := rfl

@[simp]
theorem ResourceData.id_setId (d : ResourceData) (v : String) :
    (d.setId v).id = v := rfl

@[simp]
theorem flattenAndSetTags_id (d : ResourceData) (t : List (String × String)) :
    (flattenAndSetTags d t).id = d.id := rfl

@[simp]
theorem ResourceData.get_set_same (d : ResourceData) (k : String) (v : Attr) :
    (d.set k v).get k = some v := by
  simp [ResourceData.get, ResourceData.set]

theorem ResourceData.get_set_other (d : ResourceData) (k k' : String) (v : Attr)
    (h : k ≠ k') : (d.set k v).get k' = d.get k' := by
  simp [ResourceData.get, ResourceData.set, List.find?]
  simp [show (k == k') = false from beq_eq_false_iff_ne.mpr h]

theorem metricAlertSetCondition_id (d d' : ResourceData) (c : Option RuleCondition)
    (h : metricAlertSetCondition d c = Exec.ok d') : d'.id = d.id := by
  unfold metricAlertSetCondition at h
  split at h <;> try (cases h; simp)
  split at h
  · cases h
  · split at h <;> (cases h; simp)

/-! ## Claim theorems -/

/-- C10: the scheduler job collection quota shim keeps the deprecated field in
sync: a remote quota with a non-nil recurrence interval flattens that interval
into both `max_recurrence_interval` and `max_retry_interval`; expansion prefers
a positive `max_recurrence_interval` and falls back to `max_retry_interval`
exactly when the former is absent or not positive; an empty quota block list
expands to nil and a nil quota flattens to nil. -/
theorem claim_C10_scheduler_quota_shim :
    (∀ (q : JobCollectionQuota) (r : JobMaxRecurrence) (v : Int),
      q.maxRecurrence = some r → r.interval = some v →
      ∃ block, flattenAzureArmSchedulerJobCollectionQuota (some q) = some [Attr.m block] ∧
        mlookup block "max_recurrence_interval" = some (Attr.i v) ∧
        mlookup block "max_retry_interval" = some (Attr.i v))
    ∧ (∀ (d : ResourceData) (block : List (String × Attr)),
        d.get "quota" = some (Attr.l [Attr.m block]) →
        expandAzureArmSchedulerJobCollectionQuota d = Exec.ok (some
          { maxJobCount := ((mlookup block "max_job_count").bind Attr.asInt).map toInt32
            maxRecurrence := some
              { frequency := ((mlookup block "max_recurrence_frequency").bind Attr.asStr).getD ""
                interval := schedulerQuotaInterval block } }))
    ∧ (∀ (block : List (String × Attr)) (v : Int),
        (mlookup block "max_recurrence_interval").bind Attr.asInt = some v → 0 < v →
        schedulerQuotaInterval block = some (toInt32 v))
    ∧ (∀ (block : List (String × Attr)),
        ((mlookup block "max_recurrence_interval").bind Attr.asInt = none ∨
          ∃ v, (mlookup block "max_recurrence_interval").bind Attr.asInt = some v ∧ ¬ 0 < v) →
        schedulerQuotaInterval block = schedulerQuotaFallbackInterval block)
    ∧ (∀ (d : ResourceData), d.getList "quota" = [] →
        expandAzureArmSchedulerJobCollectionQuota d = Exec.ok none)
    ∧ flattenAzureArmSchedulerJobCollectionQuota none = none := by
  refine ⟨?_, ?_, ?_, ?_, ?_, rfl⟩
  · intro q r v hr hv
    refine ⟨_, rfl, ?_, ?_⟩ <;>
      · cases hj : q.maxJobCount <;>
          simp [flattenAzureArmSchedulerJobCollectionQuota, hr, hv, hj, mlookup, List.find?]
  · intro d block h
    simp [expandAzureArmSchedulerJobCollectionQuota, ResourceData.getList, h]
  · intro block v hv hpos
    simp [schedulerQuotaInterval, hv, hpos]
  · intro block h
    rcases h with h | ⟨v, hv, hneg⟩
    · simp [schedulerQuotaInterval, h]
    · simp [schedulerQuotaInterval, hv, hneg]
  · intro d h
    simp [expandAzureArmSchedulerJobCollectionQuota, h]

/-- C10 witness: a concrete quota with interval 5 flattens into both interval
fields, a block carrying positive `max_recurrence_interval` 7 expands to 7, a
block with only `max_retry_interval` 3 falls back to 3, the empty quota list
expands to nil and the nil quota flattens to nil. -/
theorem claim_C10_scheduler_quota_shim_witness :
    (∃ block,
      flattenAzureArmSchedulerJobCollectionQuota
        (some { maxJobCount := some 2,
                maxRecurrence := some { frequency := "Hour", interval := some 5 } }) =
          some [Attr.m block] ∧
        mlookup block "max_recurrence_interval" = some (Attr.i 5) ∧
        mlookup block "max_retry_interval" = some (Attr.i 5))
    ∧ schedulerQuotaInterval [("max_recurrence_interval", Attr.i 7)] = some (toInt32 7)
    ∧ schedulerQuotaInterval [("max_retry_interval", Attr.i 3)] =
        schedulerQuotaFallbackInterval [("max_retry_interval", Attr.i 3)]
    ∧ expandAzureArmSchedulerJobCollectionQuota { id := "x", attrs := [("quota", Attr.l [])] } =
        Exec.ok none
    ∧ flattenAzureArmSchedulerJobCollectionQuota none = none := by
  refine ⟨claim_C10_scheduler_quota_shim.1 _ _ 5 rfl rfl, ?_, ?_, ?_,
    claim_C10_scheduler_quota_shim.2.2.2.2.2⟩
  · exact claim_C10_scheduler_quota_shim.2.2.1 _ 7 rfl (by norm_num)
  · exact claim_C10_scheduler_quota_shim.2.2.2.1 _ (Or.inl rfl)
  · exact claim_C10_scheduler_quota_shim.2.2.2.2.1 _ rfl

theorem lbFindLoop_not_found {α : Type} (test : α → Bool) :
    ∀ (l : List α) (i : Int), (∀ x ∈ l, test x = false) →
      lbFindLoop test l i = (none, -1, false) := by
  intro l
  induction l with
  | nil => intro i _; rfl
  | cons x rest ih =>
    intro i h
    have hx : test x = false := h x (List.mem_cons_self x rest)
    simp [lbFindLoop, hx]
    exact ih (i + 1) (fun y hy => h y (List.mem_cons_of_mem x hy))

theorem lbFindLoop_found_exists {α : Type} (test : α → Bool) :
    ∀ (l : List α) (i : Int), (lbFindLoop test l i).2.2 = true →
      ∃ x ∈ l, test x = true := by
  intro l
  induction l with
  | nil => intro i h; simp [lbFindLoop] at h
  | cons x rest ih =>
    intro i h
    by_cases hx : test x
    · exact ⟨x, List.mem_cons_self x rest, hx⟩
    · simp [lbFindLoop, hx] at h
      obtain ⟨y, hy, hty⟩ := ih (i + 1) h
      exact ⟨y, List.mem_cons_of_mem x hy, hty⟩

theorem lbFindLoop_first {α : Type} (test : α → Bool) :
    ∀ (l : List α) (i : Int), (∃ x ∈ l, test x = true) →
      lbFindLoop test l i = (l[l.findIdx test]?, i + l.findIdx test, true) ∧
        l.findIdx test < l.length := by
  intro l
  induction l with
  | nil => intro i h; simp at h
  | cons x rest ih =>
    intro i h
    by_cases hx : test x
    · constructor
      · simp [lbFindLoop, hx, List.findIdx_cons]
      · simp [List.findIdx_cons, hx]
    · have hrest : ∃ y ∈ rest, test y = true := by
        rcases h with ⟨y, hy, hty⟩
        rcases List.mem_cons.mp hy with rfl | hmem
        · exact absurd hty (by simp [hx])
        · exact ⟨y, hmem, hty⟩
      obtain ⟨heq, hlt⟩ := ih (i + 1) hrest
      have hidx : (x :: rest).findIdx test = rest.findIdx test + 1 := by
        simp [List.findIdx_cons, hx]
      constructor
      · simp only [lbFindLoop, hx, Bool.false_eq_true, if_false, heq, hidx,
          List.getElem?_cons_succ, Prod.mk.injEq]
        refine ⟨trivial, ?_, trivial⟩
        push_cast
        ring
      · simp only [hidx, List.length_cons]
        omega

/-- C8: the load balancer lookup helpers are total and correct: a nil load
balancer, nil properties or nil collection yields `(nil, -1, false)`; the found
flag is true exactly when some element has a non-nil name equal to the search
name; and on success the returned element and index are the first such element
and its in-bounds position. -/
theorem claim_C8_loadbalancer_find_helpers :
    (∀ name, findLoadBalancerFrontEndIpConfigurationByName none name = (none, -1, false)
      ∧ findLoadBalancerRuleByName none name = (none, -1, false))
    ∧ (∀ name, findLoadBalancerFrontEndIpConfigurationByName (some ⟨none⟩) name = (none, -1, false)
      ∧ findLoadBalancerRuleByName (some ⟨none⟩) name = (none, -1, false))
    ∧ (∀ name fecs rules,
        findLoadBalancerFrontEndIpConfigurationByName (some ⟨some ⟨none, rules⟩⟩) name
          = (none, -1, false)
        ∧ findLoadBalancerRuleByName (some ⟨some ⟨fecs, none⟩⟩) name = (none, -1, false))
    ∧ (∀ name configs rules,
        ((findLoadBalancerFrontEndIpConfigurationByName
            (some ⟨some ⟨some configs, rules⟩⟩) name).2.2 = true
          ↔ ∃ c ∈ configs, c.name = some name))
    ∧ (∀ name configs rules,
        ((findLoadBalancerRuleByName (some ⟨some ⟨configs, some rules⟩⟩) name).2.2 = true
          ↔ ∃ r ∈ rules, r.name = some name))
    ∧ (∀ name configs rules, (∃ c ∈ configs, c.name = some name) →
        findLoadBalancerFrontEndIpConfigurationByName (some ⟨some ⟨some configs, rules⟩⟩) name
            = (configs[configs.findIdx (fun c => c.name == some name)]?,
               (configs.findIdx (fun c => c.name == some name) : Int), true)
          ∧ configs.findIdx (fun c => c.name == some name) < configs.length)
    ∧ (∀ name configs rules, (∃ r ∈ rules, r.name = some name) →
        findLoadBalancerRuleByName (some ⟨some ⟨configs, some rules⟩⟩) name
            = (rules[rules.findIdx (fun r => r.name == some name)]?,
               (rules.findIdx (fun r => r.name == some name) : Int), true)
          ∧ rules.findIdx (fun r => r.name == some name) < rules.length) := by
  refine ⟨fun _ => ⟨rfl, rfl⟩, fun _ => ⟨rfl, rfl⟩, fun _ _ _ => ⟨rfl, rfl⟩, ?_, ?_, ?_, ?_⟩
  · intro name configs rules
    constructor
    · intro h
      obtain ⟨c, hc, htc⟩ := lbFindLoop_found_exists _ configs 0 h
      exact ⟨c, hc, by simpa using htc⟩
    · intro ⟨c, hc, htc⟩
      have := (lbFindLoop_first (fun c => c.name == some name) configs 0
        ⟨c, hc, by simpa using htc⟩).1
      simp [findLoadBalancerFrontEndIpConfigurationByName, this]
  · intro name configs rules
    constructor
    · intro h
      obtain ⟨r, hr, htr⟩ := lbFindLoop_found_exists _ rules 0 h
      exact ⟨r, hr, by simpa using htr⟩
    · intro ⟨r, hr, htr⟩
      have := (lbFindLoop_first (fun r => r.name == some name) rules 0
        ⟨r, hr, by simpa using htr⟩).1
      simp [findLoadBalancerRuleByName, this]
  · intro name configs rules ⟨c, hc, htc⟩
    have h := lbFindLoop_first (fun c => c.name == some name) configs 0
      ⟨c, hc, by simpa using htc⟩
    exact ⟨by simpa [findLoadBalancerFrontEndIpConfigurationByName] using h.1, h.2⟩
  · intro name configs rules ⟨r, hr, htr⟩
    have h := lbFindLoop_first (fun r => r.name == some name) rules 0
      ⟨r, hr, by simpa using htr⟩
    exact ⟨by simpa [findLoadBalancerRuleByName] using h.1, h.2⟩

/-- C8 witness: on a concrete load balancer with two frontend configurations and
one rule, both helpers find the named element at its index, and the nil cases
return `(nil, -1, false)`. -/
theorem claim_C8_loadbalancer_find_helpers_witness :
    findLoadBalancerFrontEndIpConfigurationByName
        (some ⟨some ⟨some [⟨some "a"⟩, ⟨some "b"⟩], some [⟨some "r"⟩]⟩⟩) "b"
        = (some ⟨some "b"⟩, 1, true)
    ∧ findLoadBalancerRuleByName (some ⟨some ⟨some [⟨some "a"⟩], some [⟨some "r"⟩]⟩⟩) "r"
        = (some ⟨some "r"⟩, 0, true)
    ∧ findLoadBalancerRuleByName none "r" = (none, -1, false) := by
  refine ⟨?_, ?_, (claim_C8_loadbalancer_find_helpers.1 "r").2⟩
  · have h := (claim_C8_loadbalancer_find_helpers.2.2.2.2.2.1 "b"
      [⟨some "a"⟩, ⟨some "b"⟩] (some [⟨some "r"⟩])
      ⟨⟨some "b"⟩, by simp, rfl⟩).1
    simpa using h
  · have h := (claim_C8_loadbalancer_find_helpers.2.2.2.2.2.2 "r"
      (some [⟨some "a"⟩]) [⟨some "r"⟩] ⟨⟨some "r"⟩, by simp, rfl⟩).1
    simpa using h

theorem dnsAaaaFlattenLoop_all_some :
    ∀ (l : List String) (acc : List String),
      dnsAaaaFlattenLoop (l.map (fun s => ({ ipv6Address := some s } : AaaaRecord))) acc =
        acc ++ l := by
  intro l
  induction l with
  | nil => intro acc; simp [dnsAaaaFlattenLoop]
  | cons x rest ih =>
    intro acc
    simp only [List.map_cons, dnsAaaaFlattenLoop, ih]
    simp

/-- C5: the expand/flatten helper pairs are mutually inverse on user-settable
fields: flattening the expanded DNS AAAA record list returns exactly the
original address strings; and for a traffic-manager monitor configuration with
non-nil port and path (and a DNS config with non-nil relative name and TTL),
expanding the flattened nested block reconstructs the original configuration. -/
theorem claim_C5_expand_flatten_roundtrips :
    (∀ (d : ResourceData) (l : List String), d.get "records" = some (Attr.l (l.map Attr.s)) →
      flattenAzureRmDnsAaaaRecords (some (expandAzureRmDnsAaaaRecords d).1) = l)
    ∧ (∀ (cfg : MonitorConfig) (p : Int) (s : String) (d : ResourceData) (blocks : List Attr),
        cfg.port = some p → cfg.path = some s →
        flattenAzureRMTrafficManagerProfileMonitorConfig cfg = Exec.ok blocks →
        expandArmTrafficManagerMonitorConfig (d.set "monitor_config" (Attr.l blocks)) =
          Exec.ok cfg)
    ∧ (∀ (dns : TMDNSConfig) (n : String) (t : Int) (d : ResourceData) (blocks : List Attr),
        dns.relativeName = some n → dns.ttl = some t →
        flattenAzureRMTrafficManagerProfileDNSConfig dns = Exec.ok blocks →
        expandArmTrafficManagerDNSConfig (d.set "dns_config" (Attr.l blocks)) = Exec.ok dns) := by
  refine ⟨?_, ?_, ?_⟩
  · intro d l h
    have hexp : (expandAzureRmDnsAaaaRecords d).1 =
        l.map (fun s => ({ ipv6Address := some s } : AaaaRecord)) := by
      simp [expandAzureRmDnsAaaaRecords, ResourceData.getList, h, List.map_map]
      intro a _
      rfl
    rw [hexp]
    simpa [flattenAzureRmDnsAaaaRecords] using dnsAaaaFlattenLoop_all_some l []
  · intro cfg p s d blocks hp hs hflat
    obtain ⟨proto, port, path⟩ := cfg
    simp only [MonitorConfig.mk.injEq] at hp hs ⊢
    subst hp hs
    simp only [flattenAzureRMTrafficManagerProfileMonitorConfig] at hflat
    cases hflat
    rfl
  · intro dns n t d blocks hn ht hflat
    obtain ⟨rname, ttl⟩ := dns
    simp only [TMDNSConfig.mk.injEq] at hn ht ⊢
    subst hn ht
    simp only [flattenAzureRMTrafficManagerProfileDNSConfig] at hflat
    cases hflat
    rfl

/-- C5 witness: a concrete two-address record set round-trips through
expand-then-flatten, and concrete monitor and DNS config blocks round-trip
through flatten-then-expand. -/
theorem claim_C5_expand_flatten_roundtrips_witness :
    flattenAzureRmDnsAaaaRecords
        (some (expandAzureRmDnsAaaaRecords
          { id := "", attrs := [("records", Attr.l [Attr.s "::1", Attr.s "2001:db8::2"])] }).1) =
      ["::1", "2001:db8::2"]
    ∧ expandArmTrafficManagerMonitorConfig
        ({ id := "", attrs := [] : ResourceData }.set "monitor_config"
          (Attr.l [Attr.m [("protocol", Attr.s "http"), ("port", Attr.i 443),
            ("path", Attr.s "/health")]])) =
        Exec.ok { protocol := "http", port := some 443, path := some "/health" }
    ∧ expandArmTrafficManagerDNSConfig
        ({ id := "", attrs := [] : ResourceData }.set "dns_config"
          (Attr.l [Attr.m [("relative_name", Attr.s "app"), ("ttl", Attr.i 30)]])) =
        Exec.ok { relativeName := some "app", ttl := some 30 } := by
  refine ⟨?_, ?_, ?_⟩
  · exact claim_C5_expand_flatten_roundtrips.1 _ ["::1", "2001:db8::2"] rfl
  · exact claim_C5_expand_flatten_roundtrips.2.1
      { protocol := "http", port := some 443, path := some "/health" } 443 "/health" _ _ rfl rfl rfl
  · exact claim_C5_expand_flatten_roundtrips.2.2
      { relativeName := some "app", ttl := some 30 } "app" 30 _ _ rfl rfl rfl

/-- C6: tag-map validation rejects the reserved key `$type`: every tag whose key
equals `$type` under case folding contributes an error naming that key, and a
tag map with no such key contributes no reserved-name error (given the shared
base validator produced none). -/
theorem claim_C6_tag_validation_rejects_type :
    (∀ (base : List String × List TagVErr) (tagsMap : List (String × Attr)) (k : String)
        (v : Attr), (k, v) ∈ tagsMap → goEqualFold k "$type" = true →
        TagVErr.notAllowedTagName k ∈ (validateMetricAlertRuleTags base tagsMap).2)
    ∧ (∀ (base : List String × List TagVErr) (tagsMap : List (String × Attr)),
        (∀ kv ∈ tagsMap, goEqualFold kv.1 "$type" = false) →
        (∀ k, TagVErr.notAllowedTagName k ∉ base.2) →
        ∀ k, TagVErr.notAllowedTagName k ∉ (validateMetricAlertRuleTags base tagsMap).2) := by
  constructor
  · intro base tagsMap k v hmem hfold
    simp only [validateMetricAlertRuleTags, List.mem_append]
    exact Or.inr (List.mem_map.mpr ⟨(k, v), List.mem_filter.mpr ⟨hmem, hfold⟩, rfl⟩)
  · intro base tagsMap hall hbase k hk
    simp only [validateMetricAlertRuleTags, List.mem_append] at hk
    rcases hk with hk | hk
    · exact hbase k hk
    · obtain ⟨kv, hkv, heq⟩ := List.mem_map.mp hk
      have hf := (List.mem_filter.mp hkv).2
      exact absurd hf (by simp [hall kv (List.mem_filter.mp hkv).1])

/-- C6 witness: a concrete map containing key `$TYPE` yields the reserved-name
error for it, and a concrete map without such a key yields none. -/
theorem claim_C6_tag_validation_rejects_type_witness :
    TagVErr.notAllowedTagName "$TYPE" ∈
      (validateMetricAlertRuleTags ([], [TagVErr.other "too many tags"])
        [("env", Attr.s "dev"), ("$TYPE", Attr.s "x")]).2
    ∧ TagVErr.notAllowedTagName "env" ∉
      (validateMetricAlertRuleTags ([], [TagVErr.other "too many tags"])
        [("env", Attr.s "dev")]).2 := by
  constructor
  · exact claim_C6_tag_validation_rejects_type.1 _ _ "$TYPE" (Attr.s "x")
      (List.mem_cons_of_mem _ (List.mem_cons_self _ _)) (by decide)
  · exact claim_C6_tag_validation_rejects_type.2 _ _
      (by intro kv hkv; simp only [List.mem_singleton] at hkv; subst hkv; decide)
      (by intro k hk; simp only [List.mem_singleton] at hk; cases hk) "env"


/-- C1: each cited Read operation clears the stored ID (sets it to the empty
string) and returns no error exactly when the remote GET reports not-found; any
normally-returned outcome that changed the stored ID is that clearing. -/
theorem claim_C1_read_404_clears_identity :
    (∀ (env : SchedulerReadEnv) (d : ResourceData) (rid : ResourceID) (e : String),
      env.parsed = Except.ok rid → env.get.err = some e → env.get.status = some 404 →
      resourceArmSchedulerJobCollectionRead env d = Exec.ok (d.setId "", none))
    ∧ (∀ (env : SchedulerReadEnv) (d d' : ResourceData) (e' : Option AdapterError),
        resourceArmSchedulerJobCollectionRead env d = Exec.ok (d', e') → d'.id ≠ d.id →
        d'.id = "" ∧ e' = none ∧ env.get.err ≠ none ∧ responseWasNotFound env.get.status = true)
    ∧ (∀ (env : EventHubCGReadEnv) (d : ResourceData) (rid : ResourceID) (e : String),
        env.parsed = Except.ok rid → env.get.err = some e → env.get.status = some 404 →
        resourceArmEventHubConsumerGroupRead env d = Exec.ok (d.setId "", none))
    ∧ (∀ (env : EventHubCGReadEnv) (d d' : ResourceData) (e' : Option AdapterError),
        resourceArmEventHubConsumerGroupRead env d = Exec.ok (d', e') → d'.id ≠ d.id →
        d'.id = "" ∧ e' = none ∧ env.get.err ≠ none ∧ responseWasNotFound env.get.status = true)
    ∧ (∀ (env : MetricAlertReadEnv) (d : ResourceData) (rid : ResourceID) (e : String),
        env.parsed = Except.ok rid → env.get.err = some e → env.get.status = some 404 →
        resourceArmMetricAlertRuleRead env d = Exec.ok (d.setId "", none))
    ∧ (∀ (env : MetricAlertReadEnv) (d d' : ResourceData) (e' : Option AdapterError),
        resourceArmMetricAlertRuleRead env d = Exec.ok (d', e') → d'.id ≠ d.id →
        d'.id = "" ∧ e' = none ∧ env.get.err ≠ none ∧
          responseWasNotFound env.get.status = true) := by
  refine ⟨?_, ?_, ?_, ?_, ?_, ?_⟩
  · intro env d rid e h1 h2 h3
    simp [resourceArmSchedulerJobCollectionRead, h1, h2, h3, responseWasNotFound]
  · intro env d d' e' h hneq
    obtain ⟨parsed, value, status, err⟩ := env
    cases parsed with
    | error e =>
      simp only [resourceArmSchedulerJobCollectionRead, Exec.ok.injEq, Prod.mk.injEq] at h
      obtain ⟨rfl, rfl⟩ := h
      exact absurd rfl hneq
    | ok rid =>
      cases err with
      | some e =>
        by_cases h404 : responseWasNotFound status = true
        · simp only [resourceArmSchedulerJobCollectionRead, h404, if_true, Exec.ok.injEq,
            Prod.mk.injEq] at h
          obtain ⟨rfl, rfl⟩ := h
          exact ⟨by simp, rfl, by simp, h404⟩
        · simp only [resourceArmSchedulerJobCollectionRead, h404, if_false, Exec.ok.injEq,
            Prod.mk.injEq, Bool.false_eq_true] at h
          obtain ⟨rfl, rfl⟩ := h
          exact absurd rfl hneq
      | none =>
        obtain ⟨vid, vname, vloc, vtags, vprops⟩ := value
        rcases vloc with _ | loc <;> rcases vprops with _ | ⟨sku, state, quota⟩ <;>
          try rcases sku with _ | ⟨skuname⟩
        all_goals
          simp only [resourceArmSchedulerJobCollectionRead, Exec.ok.injEq, Prod.mk.injEq] at h
        all_goals obtain ⟨rfl, rfl⟩ := h
        all_goals exact absurd (by simp) hneq
  · intro env d rid e h1 h2 h3
    simp [resourceArmEventHubConsumerGroupRead, h1, h2, h3, responseWasNotFound]
  · intro env d d' e' h hneq
    obtain ⟨parsed, value, status, err⟩ := env
    cases parsed with
    | error e =>
      simp only [resourceArmEventHubConsumerGroupRead, Exec.ok.injEq, Prod.mk.injEq] at h
      obtain ⟨rfl, rfl⟩ := h
      exact absurd rfl hneq
    | ok rid =>
      cases err with
      | some e =>
        by_cases h404 : responseWasNotFound status = true
        · simp only [resourceArmEventHubConsumerGroupRead, h404, if_true, Exec.ok.injEq,
            Prod.mk.injEq] at h
          obtain ⟨rfl, rfl⟩ := h
          exact ⟨by simp, rfl, by simp, h404⟩
        · simp only [resourceArmEventHubConsumerGroupRead, h404, if_false, Exec.ok.injEq,
            Prod.mk.injEq, Bool.false_eq_true] at h
          obtain ⟨rfl, rfl⟩ := h
          exact absurd rfl hneq
      | none =>
        obtain ⟨vid, vprops⟩ := value
        rcases vprops with _ | ⟨meta⟩
        · exact Exec.noConfusion h
        · simp only [resourceArmEventHubConsumerGroupRead, Exec.ok.injEq, Prod.mk.injEq] at h
          obtain ⟨rfl, rfl⟩ := h
          exact absurd (by simp) hneq
  · intro env d rid e h1 h2 h3
    simp [resourceArmMetricAlertRuleRead, h1, h2, h3, responseWasNotFound]
  · intro env d d' e' h hneq
    obtain ⟨parsed, value, status, err⟩ := env
    cases parsed with
    | error e =>
      simp only [resourceArmMetricAlertRuleRead, Exec.ok.injEq, Prod.mk.injEq] at h
      obtain ⟨rfl, rfl⟩ := h
      exact absurd rfl hneq
    | ok rid =>
      cases err with
      | some e =>
        by_cases h404 : responseWasNotFound status = true
        · simp only [resourceArmMetricAlertRuleRead, h404, if_true, Exec.ok.injEq,
            Prod.mk.injEq] at h
          obtain ⟨rfl, rfl⟩ := h
          exact ⟨by simp, rfl, by simp, h404⟩
        · simp only [resourceArmMetricAlertRuleRead, h404, if_false, Exec.ok.injEq,
            Prod.mk.injEq, Bool.false_eq_true] at h
          obtain ⟨rfl, rfl⟩ := h
          exact absurd rfl hneq
      | none =>
        obtain ⟨vid, vloc, vtags, vrule⟩ := value
        rcases vrule with _ | ⟨desc, enabled, cond, acts⟩
        · rcases vloc with _ | loc <;>
          · simp only [resourceArmMetricAlertRuleRead, Exec.ok.injEq, Prod.mk.injEq] at h
            obtain ⟨rfl, rfl⟩ := h
            exact absurd (by simp) hneq
        · rcases vloc with _ | loc <;>
          · simp only [resourceArmMetricAlertRuleRead] at h
            split at h
            · exact Exec.noConfusion h
            · rename_i dco hc
              simp only [Exec.ok.injEq, Prod.mk.injEq] at h
              obtain ⟨rfl, rfl⟩ := h
              split at hc
              · exact Exec.noConfusion hc
              · rename_i dX hcx
                rcases acts with _ | acts
                · exact Exec.noConfusion hc
                · rcases hloop : metricAlertActionsLoop acts [] [] with _ | pair
                  · simp only [hloop] at hc
                    exact Exec.noConfusion hc
                  · obtain ⟨emails, webhooks⟩ := pair
                    simp only [hloop, Exec.ok.injEq] at hc
                    subst hc
                    have hid := metricAlertSetCondition_id _ _ _ hcx
                    simp only [ResourceData.id_set] at hid
                    exact absurd (by simp [hid]) hneq

/-- C1 witness: on a concrete 404 GET outcome each of the three Reads clears the
stored ID and returns no error, and the only-on-404 direction instantiated at
the scheduler confirms the cleared ID, absent error and not-found response. -/
theorem claim_C1_read_404_clears_identity_witness :
    resourceArmSchedulerJobCollectionRead
        { parsed := Except.ok { resourceGroup := "rg", path := [("jobCollections", "jc")] },
          get := { value := ⟨none, none, none, [], none⟩, status := some 404,
                   err := some "404 not found" } }
        { id := "oldid", attrs := [] } =
      Exec.ok (({ id := "oldid", attrs := [] } : ResourceData).setId "", none)
    ∧ resourceArmEventHubConsumerGroupRead
        { parsed := Except.ok { resourceGroup := "rg", path := [("consumergroups", "cg")] },
          get := { value := ⟨none, none⟩, status := some 404, err := some "404 not found" } }
        { id := "oldid", attrs := [] } =
      Exec.ok (({ id := "oldid", attrs := [] } : ResourceData).setId "", none)
    ∧ resourceArmMetricAlertRuleRead
        { parsed := Except.ok { resourceGroup := "rg", path := [("alertrules", "ar")] },
          get := { value := ⟨none, none, [], none⟩, status := some 404,
                   err := some "404 not found" } }
        { id := "oldid", attrs := [] } =
      Exec.ok (({ id := "oldid", attrs := [] } : ResourceData).setId "", none)
    ∧ ((({ id := "oldid", attrs := [] } : ResourceData).setId "").id = ""
        ∧ (none : Option AdapterError) = none
        ∧ (some "404 not found" : Option String) ≠ none
        ∧ responseWasNotFound (some 404) = true) := by
  refine ⟨?_, ?_, ?_, ?_⟩
  · exact claim_C1_read_404_clears_identity.1 _ _
      { resourceGroup := "rg", path := [("jobCollections", "jc")] } "404 not found" rfl rfl rfl
  · exact claim_C1_read_404_clears_identity.2.2.1 _ _
      { resourceGroup := "rg", path := [("consumergroups", "cg")] } "404 not found" rfl rfl rfl
  · exact claim_C1_read_404_clears_identity.2.2.2.2.1 _ _
      { resourceGroup := "rg", path := [("alertrules", "ar")] } "404 not found" rfl rfl rfl
  · exact claim_C1_read_404_clears_identity.2.1
      { parsed := Except.ok { resourceGroup := "rg", path := [("jobCollections", "jc")] },
        get := { value := ⟨none, none, none, [], none⟩, status := some 404,
                 err := some "404 not found" } }
      { id := "oldid", attrs := [] } _ none
      (claim_C1_read_404_clears_identity.1 _ _
        { resourceGroup := "rg", path := [("jobCollections", "jc")] } "404 not found" rfl rfl rfl)
      (by decide)

/-- C2 counterexample: the DNS AAAA record Delete returns an error on a remote
not-found outcome (status 404, which `responseWasNotFound` classifies as
not-found), contradicting the claim that every adapter's Delete returns no error
on a remote 404. -/
theorem claim_C2_counterexample_dns_delete_404_errors :
    responseWasNotFound (some 404) = true
    ∧ resourceArmDnsAaaaRecordDelete
        { parsed := Except.ok
            { resourceGroup := "rg", path := [("dnszones", "zone1"), ("AAAA", "rec1")] },
          status := some 404, err := some "record set not found" }
        { id := "recordid", attrs := [] } =
      Exec.ok ({ id := "recordid", attrs := [] },
        some (AdapterError.errorf "Error deleting DNS AAAA Record")) := by
  exact ⟨rfl, rfl⟩

/-- C2 as amended: the scheduler job collection Delete treats a not-found
response as success and surfaces any other delete failure; the DNS AAAA record
Delete instead returns an error whenever the delete response status differs
from 200 OK (404 included) and no error on 200; the key vault key Delete
returns the remote call's error verbatim, not-found included. -/
theorem claim_C2_amended_delete_not_found_handling :
    (∀ (env : SchedulerDeleteEnv) (d : ResourceData) (rid : ResourceID),
      env.parsed = Except.ok rid → responseWasNotFound env.futureStatus = true →
      resourceArmSchedulerJobCollectionDelete env d = Exec.ok (d, none))
    ∧ (∀ (env : SchedulerDeleteEnv) (d : ResourceData) (rid : ResourceID) (e : String),
        env.parsed = Except.ok rid → env.deleteErr = some e →
        responseWasNotFound env.futureStatus = false →
        resourceArmSchedulerJobCollectionDelete env d = Exec.ok (d,
          some (AdapterError.errorf
            ("Error issuing delete request for Scheduler Job Collection: " ++ e))))
    ∧ (∀ (env : DnsAaaaDeleteEnv) (d : ResourceData) (rid : ResourceID) (code : Nat),
        env.parsed = Except.ok rid → env.status = some code → code ≠ 200 →
        resourceArmDnsAaaaRecordDelete env d = Exec.ok (d,
          some (AdapterError.errorf "Error deleting DNS AAAA Record")))
    ∧ (∀ (env : DnsAaaaDeleteEnv) (d : ResourceData) (rid : ResourceID),
        env.parsed = Except.ok rid → env.status = some 200 →
        resourceArmDnsAaaaRecordDelete env d = Exec.ok (d, none))
    ∧ (∀ (env : KeyVaultKeyDeleteEnv) (d : ResourceData) (pid : KeyVaultChildId),
        env.parsed = Except.ok pid →
        resourceArmKeyVaultKeyDelete env d =
          Exec.ok (d, env.deleteErr.map AdapterError.goError)) := by
  refine ⟨?_, ?_, ?_, ?_, ?_⟩
  · intro env d rid h1 h404
    cases herr : env.deleteErr with
    | none =>
      cases hw : env.waitErr with
      | none => simp [resourceArmSchedulerJobCollectionDelete, h1, herr, hw]
      | some e => simp [resourceArmSchedulerJobCollectionDelete, h1, herr, hw, h404]
    | some e =>
      cases hw : env.waitErr with
      | none => simp [resourceArmSchedulerJobCollectionDelete, h1, herr, hw, h404]
      | some e2 => simp [resourceArmSchedulerJobCollectionDelete, h1, herr, hw, h404]
  · intro env d rid e h1 herr h404
    simp [resourceArmSchedulerJobCollectionDelete, h1, herr, h404]
  · intro env d rid code h1 hst hne
    simp [resourceArmDnsAaaaRecordDelete, h1, hst, hne]
  · intro env d rid h1 hst
    simp [resourceArmDnsAaaaRecordDelete, h1, hst]
  · intro env d pid h1
    simp [resourceArmKeyVaultKeyDelete, h1]

/-- C2 amended witness: concrete instances of each conjunct — scheduler delete
on a 404 future succeeds, a non-404 scheduler delete failure errors, a 404 DNS
delete errors, a 200 DNS delete succeeds, and a key vault delete passes a
not-found error through verbatim. -/
theorem claim_C2_amended_delete_not_found_handling_witness :
    resourceArmSchedulerJobCollectionDelete
        { parsed := Except.ok { resourceGroup := "rg", path := [("jobCollections", "jc")] },
          deleteErr := some "gone", futureStatus := some 404, waitErr := some "gone" }
        { id := "jcid", attrs := [] } = Exec.ok ({ id := "jcid", attrs := [] }, none)
    ∧ resourceArmSchedulerJobCollectionDelete
        { parsed := Except.ok { resourceGroup := "rg", path := [("jobCollections", "jc")] },
          deleteErr := some "boom", futureStatus := some 500, waitErr := none }
        { id := "jcid", attrs := [] } = Exec.ok ({ id := "jcid", attrs := [] },
          some (AdapterError.errorf
            "Error issuing delete request for Scheduler Job Collection: boom"))
    ∧ resourceArmDnsAaaaRecordDelete
        { parsed := Except.ok { resourceGroup := "rg", path := [("dnszones", "z"), ("AAAA", "r")] },
          status := some 404, err := some "nf" } { id := "rid", attrs := [] } =
        Exec.ok ({ id := "rid", attrs := [] },
          some (AdapterError.errorf "Error deleting DNS AAAA Record"))
    ∧ resourceArmDnsAaaaRecordDelete
        { parsed := Except.ok { resourceGroup := "rg", path := [("dnszones", "z"), ("AAAA", "r")] },
          status := some 200, err := none } { id := "rid", attrs := [] } =
        Exec.ok ({ id := "rid", attrs := [] }, none)
    ∧ resourceArmKeyVaultKeyDelete
        { parsed := Except.ok { keyVaultBaseUrl := "https://v", name := "k", version := "1" },
          deleteErr := some "key not found" } { id := "kid", attrs := [] } =
        Exec.ok ({ id := "kid", attrs := [] }, some (AdapterError.goError "key not found")) := by
  refine ⟨?_, ?_, ?_, ?_, ?_⟩
  · exact claim_C2_amended_delete_not_found_handling.1 _ _
      { resourceGroup := "rg", path := [("jobCollections", "jc")] } rfl rfl
  · exact claim_C2_amended_delete_not_found_handling.2.1 _ _
      { resourceGroup := "rg", path := [("jobCollections", "jc")] } "boom" rfl rfl rfl
  · exact claim_C2_amended_delete_not_found_handling.2.2.1 _ _
      { resourceGroup := "rg", path := [("dnszones", "z"), ("AAAA", "r")] } 404 rfl rfl
      (by decide)
  · exact claim_C2_amended_delete_not_found_handling.2.2.2.1 _ _
      { resourceGroup := "rg", path := [("dnszones", "z"), ("AAAA", "r")] } rfl rfl
  · exact claim_C2_amended_delete_not_found_handling.2.2.2.2 _ _
      { keyVaultBaseUrl := "https://v", name := "k", version := "1" } rfl

/-- C3 counterexample: the data lake store file Create issues no existence
pre-check (the import check in the source is commented out): even when the
environment records that the remote file already exists (`existing` reports a
200 with a matching file), the create proceeds and returns success rather than
an import-required error. -/
theorem claim_C3_counterexample_datalake_no_precheck :
    resourceArmDataLakeStoreFileCreate
        { existing := { value := true, status := some 200, err := none },
          openErr := none, readAllErr := none, createErr := none,
          suffix := "azuredatalakestore.net",
          readEnv := { suffix := "azuredatalakestore.net",
                       get := { value := (), status := some 200, err := none } } }
        { id := "", attrs := [("account_name", Attr.s "acc"),
            ("remote_file_path", Attr.s "/test/example.txt"),
            ("local_file_path", Attr.s "/tmp/example.txt")] } =
      Exec.ok
        ({ id := "acc.azuredatalakestore.net/test/example.txt",
           attrs := [("remote_file_path", Attr.s "/test/example.txt"),
             ("account_name", Attr.s "acc"),
             ("account_name", Attr.s "acc"),
             ("remote_file_path", Attr.s "/test/example.txt"),
             ("local_file_path", Attr.s "/tmp/example.txt")] }, none) := by
  rfl

/-- C3 as amended: the Create operations of the scheduler job collection,
eventhub consumer group, DNS AAAA record and log analytics solution adapters
(on a new resource) and of the role assignment adapter (when the name is
caller-supplied) issue an existence pre-check GET and fail with
an import-required error when it returns a resource with a non-nil ID; the data
lake store file Create has its pre-check commented out and behaves identically
whatever an existence probe would report. -/
theorem claim_C3_amended_create_precheck :
    (∀ (env : SchedulerCreateEnv) (d : ResourceData) (i : String),
      env.isNew = true →
      (env.precheck.err = none ∨ responseWasNotFound env.precheck.status = true) →
      env.precheck.value.id = some i →
      resourceArmSchedulerJobCollectionCreateUpdate env d =
        Exec.ok (d, some (AdapterError.importAsExists "azurerm_scheduler_job_collection" i)))
    ∧ (∀ (env : EventHubCGCreateEnv) (d : ResourceData) (i : String),
        env.isNew = true →
        (env.precheck.err = none ∨ responseWasNotFound env.precheck.status = true) →
        env.precheck.value.id = some i →
        resourceArmEventHubConsumerGroupCreateUpdate env d =
          Exec.ok (d, some (AdapterError.importAsExists "azurerm_eventhub_consumer_group" i)))
    ∧ (∀ (env : DnsAaaaCreateEnv) (d : ResourceData) (i : String),
        env.isNew = true →
        (env.precheck.err = none ∨ responseWasNotFound env.precheck.status = true) →
        env.precheck.value.id = some i →
        resourceArmDnsAaaaRecordCreateOrUpdate env d =
          Exec.ok (d, some (AdapterError.importAsExists "azurerm_dns_aaaa_record" i)))
    ∧ (∀ (env : LogAnalyticsCreateEnv) (d : ResourceData) (i : String),
        env.isNew = true →
        (env.precheck.err = none ∨ responseWasNotFound env.precheck.status = true) →
        env.precheck.value.id = some i →
        (resourceArmLogAnalyticsSolutionCreateUpdate env d).result =
          Exec.ok (d, some (AdapterError.importAsExists "azurerm_log_analytics_solution" i)))
    ∧ (∀ (env : RoleAssignmentCreateEnv) (d : ResourceData) (i rdid : String),
        d.getOkStr "role_definition_id" = some rdid → d.getStr "name" ≠ "" →
        (env.precheck.err = none ∨ responseWasNotFound env.precheck.status = true) →
        env.precheck.value.id = some i →
        resourceArmRoleAssignmentCreate env d =
          Exec.ok (d.set "role_definition_id" (Attr.s rdid),
            some (AdapterError.importAsExists "azurerm_role_assignment" i)))
    ∧ (∀ (env : DataLakeFileCreateEnv) (d : ResourceData) (x : RemoteCall Bool),
        resourceArmDataLakeStoreFileCreate { env with existing := x } d =
          resourceArmDataLakeStoreFileCreate env d) := by
  refine ⟨?_, ?_, ?_, ?_, ?_, fun _ _ _ => rfl⟩
  · intro env d i hnew hok hid
    rcases hok with hok | hok
    · simp [resourceArmSchedulerJobCollectionCreateUpdate, hnew, hok,
        schedulerCreateCheckId, hid]
    · cases herr : env.precheck.err with
      | none => simp [resourceArmSchedulerJobCollectionCreateUpdate, hnew, herr,
          schedulerCreateCheckId, hid]
      | some e => simp [resourceArmSchedulerJobCollectionCreateUpdate, hnew, herr, hok,
          schedulerCreateCheckId, hid]
  · intro env d i hnew hok hid
    rcases hok with hok | hok
    · simp [resourceArmEventHubConsumerGroupCreateUpdate, hnew, hok,
        eventHubCGCreateCheckId, hid]
    · cases herr : env.precheck.err with
      | none => simp [resourceArmEventHubConsumerGroupCreateUpdate, hnew, herr,
          eventHubCGCreateCheckId, hid]
      | some e => simp [resourceArmEventHubConsumerGroupCreateUpdate, hnew, herr, hok,
          eventHubCGCreateCheckId, hid]
  · intro env d i hnew hok hid
    rcases hok with hok | hok
    · simp [resourceArmDnsAaaaRecordCreateOrUpdate, hnew, hok, dnsAaaaCreateCheckId, hid]
    · cases herr : env.precheck.err with
      | none => simp [resourceArmDnsAaaaRecordCreateOrUpdate, hnew, herr,
          dnsAaaaCreateCheckId, hid]
      | some e => simp [resourceArmDnsAaaaRecordCreateOrUpdate, hnew, herr, hok,
          dnsAaaaCreateCheckId, hid]
  · intro env d i hnew hok hid
    rcases hok with hok | hok
    · simp [resourceArmLogAnalyticsSolutionCreateUpdate, hnew, hok,
        logAnalyticsCreateCheckId, hid]
    · cases herr : env.precheck.err with
      | none => simp [resourceArmLogAnalyticsSolutionCreateUpdate, hnew, herr,
          logAnalyticsCreateCheckId, hid]
      | some e => simp [resourceArmLogAnalyticsSolutionCreateUpdate, hnew, herr, hok,
          logAnalyticsCreateCheckId, hid]
  · intro env d i rdid hrd hname hok hid
    rcases hok with hok | hok
    · simp [resourceArmRoleAssignmentCreate, roleAssignmentRoleDefinitionId, hrd, hname,
        hok, roleAssignmentCheckId, hid]
    · cases herr : env.precheck.err with
      | none => simp [resourceArmRoleAssignmentCreate, roleAssignmentRoleDefinitionId, hrd,
          hname, herr, roleAssignmentCheckId, hid]
      | some e => simp [resourceArmRoleAssignmentCreate, roleAssignmentRoleDefinitionId, hrd,
          hname, herr, hok, roleAssignmentCheckId, hid]

/-- C3 amended witness: concrete import-required failures for the scheduler and
role assignment creates when the pre-check reports an existing resource, and the
data lake create's independence of the existence probe at a concrete input. -/
theorem claim_C3_amended_create_precheck_witness :
    resourceArmSchedulerJobCollectionCreateUpdate
        { isNew := true,
          precheck := { value := ⟨some "/subs/1/jc", none, none, [], none⟩,
                        status := some 200, err := none },
          write := { value := ⟨none, none, none, [], none⟩, status := some 200, err := none },
          reread := { value := ⟨none, none, none, [], none⟩, status := some 200, err := none },
          readEnv := { parsed := Except.error "unused",
                       get := { value := ⟨none, none, none, [], none⟩, status := none,
                                err := none } } }
        { id := "", attrs := [] } =
      Exec.ok ({ id := "", attrs := [] },
        some (AdapterError.importAsExists "azurerm_scheduler_job_collection" "/subs/1/jc"))
    ∧ resourceArmRoleAssignmentCreate
        { roleDefList := Except.ok [],
          precheck := { value := ⟨some "/subs/1/ra", none, none⟩, status := some 200,
                        err := none },
          uuid := Except.ok "u", attempts := fun _ => none, fuel := 1,
          reread := { value := ⟨none, none, none⟩, status := some 200, err := none },
          readEnv := { get := { value := ⟨none, none, none⟩, status := none, err := none } } }
        { id := "", attrs := [("name", Attr.s "ra1"), ("role_definition_id", Attr.s "rd1")] } =
      Exec.ok
        (({ id := "", attrs := [("name", Attr.s "ra1"), ("role_definition_id", Attr.s "rd1")] }
            : ResourceData).set "role_definition_id" (Attr.s "rd1"),
          some (AdapterError.importAsExists "azurerm_role_assignment" "/subs/1/ra"))
    ∧ resourceArmDataLakeStoreFileCreate
        { existing := { value := true, status := some 200, err := none },
          openErr := none, readAllErr := none, createErr := some "boom",
          suffix := "sfx",
          readEnv := { suffix := "sfx", get := { value := (), status := none, err := none } } }
        { id := "", attrs := [] } =
      resourceArmDataLakeStoreFileCreate
        { existing := { value := false, status := some 404, err := some "nf" },
          openErr := none, readAllErr := none, createErr := some "boom",
          suffix := "sfx",
          readEnv := { suffix := "sfx", get := { value := (), status := none, err := none } } }
        { id := "", attrs := [] } := by
  refine ⟨?_, ?_, ?_⟩
  · exact claim_C3_amended_create_precheck.1 _ _ "/subs/1/jc" rfl (Or.inl rfl) rfl
  · exact claim_C3_amended_create_precheck.2.2.2.2.1 _ _ "/subs/1/ra" "rd1" rfl
      (by decide) (Or.inl rfl) rfl
  · exact claim_C3_amended_create_precheck.2.2.2.2.2
      { existing := { value := false, status := some 404, err := some "nf" },
        openErr := none, readAllErr := none, createErr := some "boom",
        suffix := "sfx",
        readEnv := { suffix := "sfx", get := { value := (), status := none, err := none } } }
      { id := "", attrs := [] } { value := true, status := some 200, err := none }

/-- C4 counterexample: the DNS AAAA record Create/Update stores the identifier
from the `CreateOrUpdate` response itself rather than one obtained by a
follow-up GET: with a write response carrying ID `/write-id` while the only GET
the operation performs (inside the delegated Read) reports ID `/get-id`, the
final state ID is `/write-id`. -/
theorem claim_C4_counterexample_dns_create_uses_write_response_id :
    resourceArmDnsAaaaRecordCreateOrUpdate
        { isNew := false,
          precheck := { value := ⟨none, none, none, []⟩, status := none, err := none },
          write := { value := ⟨some "/write-id", none, none, []⟩, status := some 200,
                     err := none },
          readEnv := { parsed := Except.ok
                         { resourceGroup := "rg", path := [("dnszones", "z"), ("AAAA", "rec")] },
                       get := { value := ⟨some "/get-id", some 300, some [], []⟩,
                                status := some 200, err := none } } }
        { id := "", attrs := [] } =
      Exec.ok
        ({ id := "/write-id",
           attrs := [("tags", Attr.m []), ("records", Attr.l []), ("ttl", Attr.i 300),
             ("zone_name", Attr.s "z"), ("resource_group_name", Attr.s "rg"),
             ("name", Attr.s "rec")] }, none)
    ∧ ("/write-id" : String) ≠ "/get-id" := by
  exact ⟨rfl, by decide⟩

/-- C4 as amended: after a successful remote write, the scheduler job collection
and eventhub consumer group Create/Update issue a follow-up GET, store the ID it
returns and delegate to Read (the eventhub adapter failing with an error when
the re-read carries no ID, the scheduler dereferencing it unconditionally, and a
failing re-read surfacing an error); the DNS AAAA adapter instead stores the ID
carried by the CreateOrUpdate response itself (failing with an error when it is
nil) and then delegates to Read. -/
theorem claim_C4_amended_create_stores_id_then_read :
    (∀ (env : SchedulerCreateEnv) (d : ResourceData) (cid : String)
        (q : Option JobCollectionQuota),
      env.isNew = false → expandAzureArmSchedulerJobCollectionQuota d = Exec.ok q →
      env.write.err = none → env.reread.err = none → env.reread.value.id = some cid →
      resourceArmSchedulerJobCollectionCreateUpdate env d =
        resourceArmSchedulerJobCollectionRead env.readEnv (d.setId cid))
    ∧ (∀ (env : SchedulerCreateEnv) (d : ResourceData) (e : String)
        (q : Option JobCollectionQuota),
        env.isNew = false → expandAzureArmSchedulerJobCollectionQuota d = Exec.ok q →
        env.write.err = none → env.reread.err = some e →
        resourceArmSchedulerJobCollectionCreateUpdate env d = Exec.ok (d,
          some (AdapterError.errorf
            ("Error reading Scheduler Job Collection after create/update: " ++ e))))
    ∧ (∀ (env : EventHubCGCreateEnv) (d : ResourceData) (cid : String),
        env.isNew = false → env.write.err = none → env.reread.err = none →
        env.reread.value.id = some cid →
        resourceArmEventHubConsumerGroupCreateUpdate env d =
          resourceArmEventHubConsumerGroupRead env.readEnv (d.setId cid))
    ∧ (∀ (env : EventHubCGCreateEnv) (d : ResourceData),
        env.isNew = false → env.write.err = none → env.reread.err = none →
        env.reread.value.id = none →
        resourceArmEventHubConsumerGroupCreateUpdate env d =
          Exec.ok (d, some (AdapterError.errorf "Cannot read EventHub Consumer Group ID")))
    ∧ (∀ (env : DnsAaaaCreateEnv) (d : ResourceData) (cid : String),
        env.isNew = false → env.write.err = none → env.write.value.id = some cid →
        resourceArmDnsAaaaRecordCreateOrUpdate env d =
          resourceArmDnsAaaaRecordRead env.readEnv (d.setId cid))
    ∧ (∀ (env : DnsAaaaCreateEnv) (d : ResourceData),
        env.isNew = false → env.write.err = none → env.write.value.id = none →
        resourceArmDnsAaaaRecordCreateOrUpdate env d =
          Exec.ok (d, some (AdapterError.errorf "Cannot read DNS AAAA Record ID"))) := by
  refine ⟨?_, ?_, ?_, ?_, ?_, ?_⟩
  · intro env d cid q hnew hq hw hr hid
    simp [resourceArmSchedulerJobCollectionCreateUpdate, hnew, schedulerCreateBody, hq, hw,
      hr, hid]
  · intro env d e q hnew hq hw hr
    simp [resourceArmSchedulerJobCollectionCreateUpdate, hnew, schedulerCreateBody, hq, hw, hr]
  · intro env d cid hnew hw hr hid
    simp [resourceArmEventHubConsumerGroupCreateUpdate, hnew, eventHubCGCreateBody, hw, hr, hid]
  · intro env d hnew hw hr hid
    simp [resourceArmEventHubConsumerGroupCreateUpdate, hnew, eventHubCGCreateBody, hw, hr, hid]
  · intro env d cid hnew hw hid
    simp [resourceArmDnsAaaaRecordCreateOrUpdate, hnew, dnsAaaaCreateBody, hw, hid]
  · intro env d hnew hw hid
    simp [resourceArmDnsAaaaRecordCreateOrUpdate, hnew, dnsAaaaCreateBody, hw, hid]

/-- C4 amended witness: a concrete scheduler Create whose re-read returns
`/jc-id` ends in the delegated Read applied to the state with ID `/jc-id`, and a
concrete DNS AAAA Create whose write response carries no ID fails with the
cannot-read-ID error. -/
theorem claim_C4_amended_create_stores_id_then_read_witness :
    resourceArmSchedulerJobCollectionCreateUpdate
        { isNew := false,
          precheck := { value := ⟨none, none, none, [], none⟩, status := none, err := none },
          write := { value := ⟨none, none, none, [], none⟩, status := some 200, err := none },
          reread := { value := ⟨some "/jc-id", none, none, [], none⟩, status := some 200,
                      err := none },
          readEnv := { parsed := Except.error "parse error",
                       get := { value := ⟨none, none, none, [], none⟩, status := none,
                                err := none } } }
        { id := "", attrs := [] } =
      resourceArmSchedulerJobCollectionRead
        { parsed := Except.error "parse error",
          get := { value := ⟨none, none, none, [], none⟩, status := none, err := none } }
        (({ id := "", attrs := [] } : ResourceData).setId "/jc-id")
    ∧ resourceArmDnsAaaaRecordCreateOrUpdate
        { isNew := false,
          precheck := { value := ⟨none, none, none, []⟩, status := none, err := none },
          write := { value := ⟨none, none, none, []⟩, status := some 200, err := none },
          readEnv := { parsed := Except.error "parse error",
                       get := { value := ⟨none, none, none, []⟩, status := none,
                                err := none } } }
        { id := "", attrs := [] } =
      Exec.ok ({ id := "", attrs := [] },
        some (AdapterError.errorf "Cannot read DNS AAAA Record ID")) := by
  constructor
  · exact claim_C4_amended_create_stores_id_then_read.1 _ _ "/jc-id" none rfl rfl rfl rfl rfl
  · exact claim_C4_amended_create_stores_id_then_read.2.2.2.2.2 _ _ rfl rfl rfl

/-- C7: the role assignment create retry loop: every remote create error is
classified retryable and triggers a re-attempt, success ends the loop (and the
enclosing Create proceeds) with no error, the loop is bounded by the
timeout-derived fuel, and — for contrast — the scheduler Create surfaces a
failing write immediately instead of retrying. -/
theorem claim_C7_role_assignment_create_retries :
    (∀ e, retryRoleAssignmentsClient (some e) = some (RetryError.retryable e))
    ∧ retryRoleAssignmentsClient none = none
    ∧ (∀ (attempts : Nat → Option String) (fuel i : Nat), attempts i = none →
        resourceRetry (fuel + 1) (fun j => retryRoleAssignmentsClient (attempts j)) i = none)
    ∧ (∀ (attempts : Nat → Option String) (fuel i : Nat) (e : String), attempts i = some e →
        resourceRetry (fuel + 2) (fun j => retryRoleAssignmentsClient (attempts j)) i =
          resourceRetry (fuel + 1) (fun j => retryRoleAssignmentsClient (attempts j)) (i + 1))
    ∧ (∀ (attempts : Nat → Option String) (i fuel : Nat), (∀ j, attempts j ≠ none) →
        resourceRetry fuel (fun j => retryRoleAssignmentsClient (attempts j)) i ≠ none)
    ∧ (∀ (env : RoleAssignmentCreateEnv) (d : ResourceData) (rdid u rid : String),
        d.getOkStr "role_definition_id" = some rdid → d.getStr "name" = "" →
        env.uuid = Except.ok u →
        resourceRetry env.fuel (fun i => retryRoleAssignmentsClient (env.attempts i)) 0 = none →
        env.reread.err = none → env.reread.value.id = some rid →
        resourceArmRoleAssignmentCreate env d =
          resourceArmRoleAssignmentRead env.readEnv
            ((d.set "role_definition_id" (Attr.s rdid)).setId rid))
    ∧ (∀ (env : SchedulerCreateEnv) (d : ResourceData) (e : String)
        (q : Option JobCollectionQuota),
        env.isNew = false → expandAzureArmSchedulerJobCollectionQuota d = Exec.ok q →
        env.write.err = some e →
        resourceArmSchedulerJobCollectionCreateUpdate env d = Exec.ok (d,
          some (AdapterError.errorf
            ("Error creating/updating Scheduler Job Collection: " ++ e)))) := by
  refine ⟨fun e => rfl, rfl, ?_, ?_, ?_, ?_, ?_⟩
  · intro attempts fuel i h
    simp [resourceRetry, h, retryRoleAssignmentsClient]
  · intro attempts fuel i e h
    simp [resourceRetry, h, retryRoleAssignmentsClient]
  · intro attempts i fuel h
    induction fuel generalizing i with
    | zero => simp [resourceRetry]
    | succ n ih =>
      cases ha : attempts i with
      | none => exact absurd ha (h i)
      | some e =>
        cases n with
        | zero => simp [resourceRetry, ha, retryRoleAssignmentsClient]
        | succ m =>
          simp only [resourceRetry, ha, retryRoleAssignmentsClient]
          exact ih (i + 1)
  · intro env d rdid u rid hrd hname huuid hretry hre hid
    simp [resourceArmRoleAssignmentCreate, roleAssignmentRoleDefinitionId, hrd, hname, huuid,
      roleAssignmentAfterName, hretry, hre, hid]
  · intro env d e q hnew hq hw
    simp [resourceArmSchedulerJobCollectionCreateUpdate, hnew, schedulerCreateBody, hq, hw]

/-- C7 witness: with a concrete attempt sequence failing once then succeeding,
the classification, the re-attempt step, the successful loop exit, the
bounded-failure case and the create-level delegation are all instantiated. -/
theorem claim_C7_role_assignment_create_retries_witness :
    retryRoleAssignmentsClient (some "principal not found") =
      some (RetryError.retryable "principal not found")
    ∧ resourceRetry 3
        (fun j => retryRoleAssignmentsClient
          ((fun j => if j = 0 then some "principal not found" else none) j)) 0 =
      resourceRetry 2
        (fun j => retryRoleAssignmentsClient
          ((fun j => if j = 0 then some "principal not found" else none) j)) 1
    ∧ resourceRetry 2
        (fun j => retryRoleAssignmentsClient
          ((fun j => if j = 0 then some "principal not found" else none) j)) 1 = none
    ∧ resourceRetry 4 (fun j => retryRoleAssignmentsClient ((fun _ => some "denied") j)) 0 ≠ none
    ∧ resourceArmRoleAssignmentCreate
        { roleDefList := Except.ok [],
          precheck := { value := ⟨none, none, none⟩, status := none, err := none },
          uuid := Except.ok "uuid-1", attempts := fun _ => none, fuel := 1,
          reread := { value := ⟨some "/ra-id", none, none⟩, status := some 200, err := none },
          readEnv := { get := { value := ⟨none, none, none⟩, status := none, err := none } } }
        { id := "", attrs := [("role_definition_id", Attr.s "rd1")] } =
      resourceArmRoleAssignmentRead
        { get := { value := ⟨none, none, none⟩, status := none, err := none } }
        ((({ id := "", attrs := [("role_definition_id", Attr.s "rd1")] } : ResourceData).set
          "role_definition_id" (Attr.s "rd1")).setId "/ra-id") := by
  refine ⟨claim_C7_role_assignment_create_retries.1 "principal not found", ?_, ?_, ?_, ?_⟩
  · exact claim_C7_role_assignment_create_retries.2.2.2.1
      (fun j => if j = 0 then some "principal not found" else none) 1 0
      "principal not found" rfl
  · exact claim_C7_role_assignment_create_retries.2.2.1
      (fun j => if j = 0 then some "principal not found" else none) 1 1 rfl
  · exact claim_C7_role_assignment_create_retries.2.2.2.2.1 (fun _ => some "denied") 0 4
      (fun j => by simp)
  · exact claim_C7_role_assignment_create_retries.2.2.2.2.2.1 _ _ "rd1" "uuid-1" "/ra-id"
      rfl rfl rfl rfl rfl rfl

theorem strDataAppend (a b : String) : (a ++ b).data = a.data ++ b.data := rfl

theorem asStringData (s : String) : s.data.asString = s := rfl

theorem goSplitCharLoop_no_sep (sep : Char) :
    ∀ (xs acc : List Char), sep ∉ xs →
      goSplitCharLoop sep xs acc = [(acc.reverse ++ xs).asString] := by
  intro xs
  induction xs with
  | nil => intro acc _; simp [goSplitCharLoop]
  | cons x rest ih =>
    intro acc h
    have hx : ¬(x = sep) := by
      rintro rfl
      exact h (List.mem_cons_self _ _)
    have hrest : sep ∉ rest := fun hm => h (List.mem_cons_of_mem _ hm)
    simp only [goSplitCharLoop, hx, if_false, ih (x :: acc) hrest]
    simp

theorem goSplitCharLoop_sep (sep : Char) :
    ∀ (xs ys acc : List Char), sep ∉ xs →
      goSplitCharLoop sep (xs ++ sep :: ys) acc =
        (acc.reverse ++ xs).asString :: goSplitCharLoop sep ys [] := by
  intro xs
  induction xs with
  | nil =>
    intro ys acc _
    simp [goSplitCharLoop]
  | cons x rest ih =>
    intro ys acc h
    have hx : ¬(x = sep) := by
      rintro rfl
      exact h (List.mem_cons_self _ _)
    have hrest : sep ∉ rest := fun hm => h (List.mem_cons_of_mem _ hm)
    have hstep : goSplitCharLoop sep ((x :: rest) ++ sep :: ys) acc =
        goSplitCharLoop sep (rest ++ sep :: ys) (x :: acc) := by
      simp [goSplitCharLoop, hx]
    rw [hstep, ih ys (x :: acc) hrest]
    simp

theorem goContains_of_mem (s : String) (c : Char) (h : c ∈ s.data) :
    goContains s c = true := by
  simp only [goContains, List.any_eq_true]
  exact ⟨c, h, by simp⟩

theorem goContains_eq_false (s : String) (c : Char) (h : c ∉ s.data) :
    goContains s c = false := by
  simp only [goContains, List.any_eq_false, beq_iff_eq]
  rintro x hx rfl
  exact h hx

theorem goSplit_composed (s w : String) (hs : '(' ∉ s.data) (hw : '(' ∉ w.data) :
    goSplit (s ++ "(" ++ w ++ ")") '(' = [s, (w.data ++ [')']).asString] := by
  have hdata : (s ++ "(" ++ w ++ ")").data = s.data ++ '(' :: (w.data ++ [')']) := by
    simp [strDataAppend, List.append_assoc]
  have hrest : '(' ∉ w.data ++ [')'] := by
    intro hmem
    rcases List.mem_append.mp hmem with hmem | hmem
    · exact hw hmem
    · simp at hmem
  rw [goSplit, hdata, goSplitCharLoop_sep '(' s.data (w.data ++ [')']) [] hs,
    goSplitCharLoop_no_sep '(' (w.data ++ [')']) [] hrest]
  simp [asStringData]

theorem goTrimLead_closed_no_lead (w : String) (hw : '(' ∉ w.data) :
    goTrimLead ((w.data ++ [')']).asString) "(" = (w.data ++ [')']).asString := by
  have hlead : leadsWith "(".data ((w.data ++ [')']).asString).data = false := by
    show leadsWith ['('] (w.data ++ [')']) = false
    cases hwd : w.data with
    | nil => simp [hwd, leadsWith]
    | cons c cs =>
      have hc : ¬('(' = c) := by
        rintro rfl
        exact hw (hwd ▸ List.mem_cons_self _ _)
      simp [leadsWith, hc]
  simp [goTrimLead, hlead]

theorem goTrimTrail_closed (l : List Char) :
    goTrimTrail ((l ++ [')']).asString) ")" = l.asString := by
  have hrev : ((l ++ [')']).asString).data.reverse = ')' :: l.reverse := by
    show (l ++ [')']).reverse = ')' :: l.reverse
    simp
  have hsd : (")".data.reverse) = [')'] := rfl
  have hlead : leadsWith [')'] (')' :: l.reverse) = true := by simp [leadsWith]
  simp only [goTrimTrail, hsd, hrev, hlead, if_true]
  simp [List.asString]

/-- C9: the log analytics solution name composition round-trips: Create passes
`solution_name(workspace_name)` to every remote call; Read decomposes such a
composed remote name (when the solution name contains no `(` and the workspace
name no `(` or `)`) back into the original pair; and a remote name without `(`,
one splitting into other than two parts, or a nil name each yield the format
error. -/
theorem claim_C9_log_analytics_name_roundtrip :
    (∀ (env : LogAnalyticsCreateEnv) (d : ResourceData),
      (resourceArmLogAnalyticsSolutionCreateUpdate env d).remoteName =
        d.getStr "solution_name" ++ "(" ++ d.getStr "workspace_name" ++ ")")
    ∧ (∀ (env : LogAnalyticsReadEnv) (d : ResourceData) (rid : ResourceID)
        (s w pn pp ppc ppr : String),
        env.parsed = Except.ok rid → env.get.err = none →
        env.get.value.name = some (s ++ "(" ++ w ++ ")") →
        env.get.value.plan = some { name := some pn, publisher := some pp,
                                    promotionCode := some ppc, product := some ppr } →
        '(' ∉ s.data → '(' ∉ w.data → ')' ∉ w.data →
        ∃ d', resourceArmLogAnalyticsSolutionRead env d = Exec.ok (d', none)
          ∧ d'.get "solution_name" = some (Attr.s s)
          ∧ d'.get "workspace_name" = some (Attr.s w))
    ∧ (∀ (env : LogAnalyticsReadEnv) (d : ResourceData) (rid : ResourceID) (n : String)
        (p : SolutionPlan),
        env.parsed = Except.ok rid → env.get.err = none → env.get.value.plan = some p →
        env.get.value.name = some n → '(' ∉ n.data →
        ∃ d', resourceArmLogAnalyticsSolutionRead env d =
          Exec.ok (d', some logAnalyticsSolutionNameFormatError))
    ∧ (∀ (env : LogAnalyticsReadEnv) (d : ResourceData) (rid : ResourceID) (n : String)
        (p : SolutionPlan),
        env.parsed = Except.ok rid → env.get.err = none → env.get.value.plan = some p →
        env.get.value.name = some n → goContains n '(' = true →
        (goSplit n '(').length ≠ 2 →
        ∃ d', resourceArmLogAnalyticsSolutionRead env d =
          Exec.ok (d', some logAnalyticsSolutionNameFormatError))
    ∧ (∀ (env : LogAnalyticsReadEnv) (d : ResourceData) (rid : ResourceID)
        (p : SolutionPlan),
        env.parsed = Except.ok rid → env.get.err = none → env.get.value.plan = some p →
        env.get.value.name = none →
        ∃ d', resourceArmLogAnalyticsSolutionRead env d =
          Exec.ok (d', some logAnalyticsSolutionNameFormatError)) := by
  refine ⟨fun env d => rfl, ?_, ?_, ?_, ?_⟩
  · intro env d rid s w pn pp ppc ppr h1 h2 hname hplan hs hw1 hw2
    obtain ⟨parsed, value, status, err⟩ := env
    obtain ⟨vid, vname, vloc, vplan, vprops⟩ := value
    simp only at h1 h2 hname hplan
    subst h1 h2 hname hplan
    have hcont : goContains (s ++ "(" ++ w ++ ")") '(' = true := by
      apply goContains_of_mem
      show '(' ∈ (s ++ "(" ++ w ++ ")").data
      have : (s ++ "(" ++ w ++ ")").data = s.data ++ '(' :: (w.data ++ [')']) := by
        simp [strDataAppend, List.append_assoc]
      rw [this]
      simp
    have hsplit := goSplit_composed s w hs hw1
    have htrim : goTrimTrail (goTrimLead ((w.data ++ [')']).asString) "(") ")" = w := by
      rw [goTrimLead_closed_no_lead w hw1, goTrimTrail_closed w.data, asStringData]
    rcases vloc with _ | loc <;> rcases vprops with _ | wrid <;>
    · simp only [resourceArmLogAnalyticsSolutionRead, hcont, hsplit, htrim,
        flattenAzureRmLogAnalyticsSolutionPlan, if_true]
      exact ⟨_, rfl, rfl, rfl⟩
  · intro env d rid n p h1 h2 hplan hname hn
    obtain ⟨parsed, value, status, err⟩ := env
    obtain ⟨vid, vname, vloc, vplan, vprops⟩ := value
    simp only at h1 h2 hname hplan
    subst h1 h2 hname hplan
    have hcont := goContains_eq_false n '(' hn
    rcases vloc with _ | loc <;>
    · simp [resourceArmLogAnalyticsSolutionRead, hcont]

  · intro env d rid n p h1 h2 hplan hname hcont hlen
    obtain ⟨parsed, value, status, err⟩ := env
    obtain ⟨vid, vname, vloc, vplan, vprops⟩ := value
    simp only at h1 h2 hname hplan
    subst h1 h2 hname hplan
    rcases hsp : goSplit n '(' with _ | ⟨p0, _ | ⟨p1, _ | ⟨p2, rest⟩⟩⟩
    · rcases vloc with _ | loc <;>
      · simp [resourceArmLogAnalyticsSolutionRead, hcont, hsp]

    · rcases vloc with _ | loc <;>
      · simp [resourceArmLogAnalyticsSolutionRead, hcont, hsp]

    · rw [hsp] at hlen
      simp at hlen
    · rcases vloc with _ | loc <;>
      · simp [resourceArmLogAnalyticsSolutionRead, hcont, hsp]

  · intro env d rid p h1 h2 hplan hname
    obtain ⟨parsed, value, status, err⟩ := env
    obtain ⟨vid, vname, vloc, vplan, vprops⟩ := value
    simp only at h1 h2 hname hplan
    subst h1 h2 hname hplan
    rcases vloc with _ | loc <;>
    · simp [resourceArmLogAnalyticsSolutionRead]


/-- C9 witness: a concrete Create composes `Containers(workspace1)`; a concrete
Read on that remote name recovers solution and workspace names; and a concrete
remote name without `(` yields the format error. -/
theorem claim_C9_log_analytics_name_roundtrip_witness :
    (resourceArmLogAnalyticsSolutionCreateUpdate
        { isNew := false,
          precheck := { value := ⟨none, none, none, none, none⟩, status := none, err := none },
          write := { value := ⟨none, none, none, none, none⟩, status := some 201, err := none },
          reread := { value := ⟨none, none, none, none, none⟩, status := none, err := none },
          readEnv := { parsed := Except.error "unused",
                       get := { value := ⟨none, none, none, none, none⟩, status := none,
                                err := none } } }
        { id := "", attrs := [("solution_name", Attr.s "Containers"),
            ("workspace_name", Attr.s "workspace1")] }).remoteName = "Containers(workspace1)"
    ∧ (∃ d', resourceArmLogAnalyticsSolutionRead
        { parsed := Except.ok { resourceGroup := "rg", path := [("solutions", "x")] },
          get := { value := ⟨some "/sol-id", some ("Containers" ++ "(" ++ "workspace1" ++ ")"),
                     none,
                     some { name := some "Containers(workspace1)", publisher := some "Microsoft",
                            promotionCode := some "", product := some "OMSGallery/Containers" },
                     none⟩,
                   status := some 200, err := none } }
        { id := "/sol-id", attrs := [] } = Exec.ok (d', none)
        ∧ d'.get "solution_name" = some (Attr.s "Containers")
        ∧ d'.get "workspace_name" = some (Attr.s "workspace1"))
    ∧ (∃ d', resourceArmLogAnalyticsSolutionRead
        { parsed := Except.ok { resourceGroup := "rg", path := [("solutions", "x")] },
          get := { value := ⟨some "/sol-id", some "badname", none,
                     some { name := some "n", publisher := some "p",
                            promotionCode := some "", product := some "pr" },
                     none⟩,
                   status := some 200, err := none } }
        { id := "/sol-id", attrs := [] } =
          Exec.ok (d', some logAnalyticsSolutionNameFormatError)) := by
  refine ⟨?_, ?_, ?_⟩
  · exact (claim_C9_log_analytics_name_roundtrip.1 _ _).trans rfl
  · exact claim_C9_log_analytics_name_roundtrip.2.1 _ _
      { resourceGroup := "rg", path := [("solutions", "x")] } "Containers" "workspace1"
      "Containers(workspace1)" "Microsoft" "" "OMSGallery/Containers"
      rfl rfl rfl rfl (by decide) (by decide) (by decide)
  · exact claim_C9_log_analytics_name_roundtrip.2.2.1 _ _
      { resourceGroup := "rg", path := [("solutions", "x")] } "badname"
      { name := some "n", publisher := some "p", promotionCode := some "",
        product := some "pr" }
      rfl rfl rfl rfl (by decide)
